import Mathlib

/-!
Verification development for the anime search/tracking bot (`src/bot.py`).

The Python source is shallowly embedded below.  Conventions used throughout:

* SQLite tables of the Entity Store become Lean lists / association lists.
  `INSERT OR REPLACE` is modelled by SQLite's documented semantics: the
  conflicting row is deleted and a fresh row is inserted, so every column
  that is *not* named in the statement reverts to its column default
  (`progress` has `DEFAULT 0`, `score` has no default and becomes NULL).
* Rows ordered by a `TIMESTAMP` column (`ORDER BY ... DESC`) are modelled by
  keeping the list in most-recent-first order and moving a row to the front
  whenever the corresponding timestamp would be refreshed.
* Python `None` becomes `Option.none`; Python truthiness of the values the
  code actually tests (`None`, `0`, `""`, `[]`) is modelled explicitly at
  each use site.
* Machine integers are `Int` (Python integers are unbounded, so no modular
  reduction is needed).
* Code that can raise returns `Except PyErr _`.
-/

/-- Python exception kinds that the embedded fragments can raise. -/
inductive PyErr where
  | valueError
  | typeError
  | keyError
  | indexError
  | attributeError
  deriving DecidableEq

/-- Watch status values allowed by the `watchlists.status` CHECK constraint. -/
inductive WStatus where
  | plan_to_watch
  | watching
  | completed
  | dropped
  deriving DecidableEq

/-- One row of the `watchlists` table (besides its (user_id, anime_id) key).
`score` is NULLable; `progress` has column default 0. -/
structure WatchRow where
  status : WStatus
  score : Option Int
  progress : Int
  deriving DecidableEq

/-- Entries of `genres` / `studios` / `producers` as the API returns
them: besides `name` (the only field this code reads) they carry an id
and a URL.  `cache_anime` serialises only the names, so the id and URL
are destroyed by a cache round trip. -/
structure Named where
  name : String
  mal_id : Option Int
  url : Option String
  deriving DecidableEq

/-- The `trailer` sub-object of a catalog entity (its `url` is read by the
trailer button at src/bot.py:1821); it is not among the cached columns. -/
structure Trailer where
  url : Option String
  deriving DecidableEq

/-- The `images.jpg` sub-object of a catalog entity. -/
structure JpgImages where
  image_url : Option String
  large_image_url : Option String
  deriving DecidableEq

/-- The `images` sub-object of a catalog entity. -/
structure Images where
  jpg : Option JpgImages
  deriving DecidableEq

/-- A parsed catalog media item: the sixteen fields that
`AnimeDatabase.cache_anime` / `get_cached_anime` touch, plus the response
fields this program reads elsewhere but the cache does *not* store —
`trailer` (the trailer button, src/bot.py:1821) and `season`
(`check_season_variety`, src/bot.py:619).  The real response carries yet
more uncached fields (rank, popularity, type, url, ...); `trailer` and
`season` stand for all of them in this model, so a cache round trip is
visibly lossy outside the cached columns.  `score` is a SQLite REAL; it is
only stored and compared, never computed with, so it is modelled as a
rational. -/
structure Anime where
  mal_id : Int
  title : Option String
  title_japanese : Option String
  title_english : Option String
  images : Images
  synopsis : Option String
  score : Option Rat
  episodes : Option Int
  status : Option String
  year : Option Int
  genres : List Named
  studios : List Named
  producers : List Named
  duration : Option String
  rating : Option String
  source : Option String
  trailer : Option Trailer
  season : Option String
  deriving DecidableEq

/-- One row of the `anime_cache` table (less the key and `cached_at`). -/
structure CachedRow where
  title : Option String
  title_japanese : Option String
  title_english : Option String
  image_url : Option String
  synopsis : Option String
  score : Option Rat
  episodes : Option Int
  status : Option String
  year : Option Int
  genres : List String
  studios : List String
  producers : List String
  duration : Option String
  rating : Option String
  source : Option String
  deriving DecidableEq

/-- Rows of the `achievements` table: (user_id, achievement_type,
achievement_name), most recently granted first. -/
abbrev AchList := List (Int × String × String)

/-- The Entity Store (the SQLite database of `AnimeDatabase`).  The
`custom_lists` tables are omitted: no claim touches them.  The character
cache is modelled separately at the HTTP layer. -/
structure DBState where
  users : List Int
  favorites : List (Int × Int)
  watchrows : List ((Int × Int) × WatchRow)
  achievements : AchList
  animeCache : List (Int × CachedRow)
  deriving DecidableEq

/-- The empty database produced by `init_db`. -/
def DBState.empty : DBState := ⟨[], [], [], [], []⟩

/-- `AnimeDatabase.add_user`: `INSERT OR IGNORE INTO users`.  Only the key
matters for the embedded behaviour; no code path reads the other columns. -/
def add_user (s : DBState) (u : Int) : DBState :=
  if s.users.contains u then s else { s with users := u :: s.users }

/-- `AnimeDatabase.add_to_favorites`: `INSERT OR REPLACE INTO favorites`;
re-adding refreshes `added_at`, hence the row moves to the front of the
most-recent-first order. -/
def add_to_favorites (s : DBState) (u a : Int) : DBState :=
  { s with favorites := (u, a) :: s.favorites.filter (fun p => !(p.1 == u && p.2 == a)) }

/-- `AnimeDatabase.remove_from_favorites`. -/
def remove_from_favorites (s : DBState) (u a : Int) : DBState :=
  { s with favorites := s.favorites.filter (fun p => !(p.1 == u && p.2 == a)) }

/-- `AnimeDatabase.get_favorites`: anime ids of a user, `ORDER BY added_at
DESC` (most recently added first). -/
def get_favorites (s : DBState) (u : Int) : List Int :=
  (s.favorites.filter (fun p => p.1 == u)).map (·.2)

/-- `AnimeDatabase.is_favorite`. -/
def is_favorite (s : DBState) (u a : Int) : Bool :=
  s.favorites.any (fun p => p.1 == u && p.2 == a)

/-- `AnimeDatabase.update_watchlist`.  The four branches mirror the source
exactly; each performs `INSERT OR REPLACE`, which deletes the old row and
inserts a fresh one, so columns that the branch does not name revert to
their declared defaults (`score` → NULL, `progress` → 0).  The refreshed
`updated_at` is modelled by moving the row to the front. -/
def update_watchlist (s : DBState) (u a : Int) (status : WStatus)
    (score : Option Int := none) (progress : Option Int := none) : DBState :=
  let others := s.watchrows.filter (fun e => !(e.1.1 == u && e.1.2 == a))
  match score, progress with
  | some sc, some pr =>
      { s with watchrows := ((u, a), ⟨status, some sc, pr⟩) :: others }
  | some sc, none =>
      { s with watchrows := ((u, a), ⟨status, some sc, 0⟩) :: others }
  | none, some pr =>
      { s with watchrows := ((u, a), ⟨status, none, pr⟩) :: others }
  | none, none =>
      { s with watchrows := ((u, a), ⟨status, none, 0⟩) :: others }

/-- `AnimeDatabase.get_watch_status`: the row for one (user, anime) pair. -/
def get_watch_status (s : DBState) (u a : Int) : Option WatchRow :=
  (s.watchrows.find? (fun e => e.1.1 == u && e.1.2 == a)).map (·.2)

/-- `AnimeDatabase.get_watchlist` without a status filter: all rows of a
user, `ORDER BY updated_at DESC`, as (anime_id, row) pairs. -/
def get_watchlist (s : DBState) (u : Int) : List (Int × WatchRow) :=
  (s.watchrows.filter (fun e => e.1.1 == u)).map (fun e => (e.1.2, e.2))

/-- `AnimeDatabase.get_watchlist` with a status filter. -/
def get_watchlist_status (s : DBState) (u : Int) (st : WStatus) :
    List (Int × WatchRow) :=
  (s.watchrows.filter (fun e => e.1.1 == u && e.2.status == st)).map
    (fun e => (e.1.2, e.2))

/-- `AnimeDatabase.add_achievement`: first checks `COUNT(*)` for the
(user_id, achievement_type) pair; inserts only when the count is zero.
Returns the Python function's boolean together with the new table. -/
def add_achievement (achs : AchList) (u : Int) (t n : String) :
    Bool × AchList :=
  if achs.any (fun r => r.1 == u && r.2.1 == t) then (false, achs)
  else (true, (u, t, n) :: achs)

/-- Number of stored achievement rows for a (user, kind) pair. -/
def count_achievement (achs : AchList) (u : Int) (t : String) : Nat :=
  (achs.filter (fun r => r.1 == u && r.2.1 == t)).length

/-- `AnimeDatabase.get_achievements`: (type, name) per row, most recent
grant first. -/
def get_achievements (achs : AchList) (u : Int) : List (String × String) :=
  (achs.filter (fun r => r.1 == u)).map (·.2)

/-- Python `a or b` on optional strings, as used for
`images['jpg'].get('large_image_url') or images['jpg'].get('image_url')`:
`None` and the empty string are falsy. -/
def pyOrStr (x y : Option String) : Option String :=
  match x with
  | some s => if s.length ≠ 0 then some s else y
  | none => y

/-- The single image URL that `cache_anime` extracts from an entity. -/
def extract_image_url (a : Anime) : Option String :=
  match a.images.jpg with
  | some j => pyOrStr j.large_image_url j.image_url
  | none => none

/-- The row that `AnimeDatabase.cache_anime` writes for an entity: list
fields are projected to their `name` strings (JSON-serialised in SQLite),
the nested image object is collapsed to one URL. -/
def project_anime (a : Anime) : CachedRow :=
  { title := a.title
    title_japanese := a.title_japanese
    title_english := a.title_english
    image_url := extract_image_url a
    synopsis := a.synopsis
    score := a.score
    episodes := a.episodes
    status := a.status
    year := a.year
    genres := a.genres.map (·.name)
    studios := a.studios.map (·.name)
    producers := a.producers.map (·.name)
    duration := a.duration
    rating := a.rating
    source := a.source }

/-- The entity that `AnimeDatabase.get_cached_anime` rebuilds from a cached
row: both image URLs are set to the single stored URL, the name lists are
rebuilt as name-only objects (the ids and URLs they once carried are
gone), and every field outside the sixteen cached columns — trailer,
season, and their ilk — is simply absent from the rebuilt dict. -/
def reconstruct_anime (id : Int) (r : CachedRow) : Anime :=
  { mal_id := id
    title := r.title
    title_japanese := r.title_japanese
    title_english := r.title_english
    images := ⟨some ⟨r.image_url, r.image_url⟩⟩
    synopsis := r.synopsis
    score := r.score
    episodes := r.episodes
    status := r.status
    year := r.year
    genres := r.genres.map (fun n => Named.mk n none none)
    studios := r.studios.map (fun n => Named.mk n none none)
    producers := r.producers.map (fun n => Named.mk n none none)
    duration := r.duration
    rating := r.rating
    source := r.source
    trailer := none
    season := none }

/-- `AnimeDatabase.cache_anime`: unconditional `INSERT OR REPLACE` keyed by
`mal_id`. -/
def cache_anime (s : DBState) (a : Anime) : DBState :=
  { s with animeCache :=
      (a.mal_id, project_anime a) ::
        s.animeCache.filter (fun e => !(e.1 == a.mal_id)) }

/-- `AnimeDatabase.get_cached_anime`. -/
def get_cached_anime (s : DBState) (id : Int) : Option Anime :=
  (s.animeCache.find? (fun e => e.1 == id)).map (fun e => reconstruct_anime id e.2)

/-- `get_anime_by_id`, at the level of parsed entities: consult the cache
first and return on a hit; otherwise issue one network request (the oracle
`net`), write a successful result through the cache, and return it.  The
third component counts network calls made by this invocation. -/
def get_anime_by_id (net : Int → Option Anime) (s : DBState) (id : Int) :
    Option Anime × DBState × Nat :=
  match get_cached_anime s id with
  | some a => (some a, s, 0)
  | none =>
      match net id with
      | some a => (some a, cache_anime s a, 1)
      | none => (none, s, 1)

/-- The cache-then-network resolution used inside the recommendation and
achievement code: `db.get_cached_anime(anime_id) or get_anime_by_id(anime_id)`. -/
def resolve_anime (net : Int → Option Anime) (s : DBState) (id : Int) :
    Option Anime × DBState :=
  match get_cached_anime s id with
  | some a => (some a, s)
  | none =>
      let r := get_anime_by_id net s id
      (r.1, r.2.1)

/-- `check_achievements`: iterate the `ACHIEVEMENTS` registry in order; for
every entry whose condition holds, try `add_achievement` and collect the
name when the grant is new.  The registry entries are
(achievement_type, achievement_name, condition); conditions read users,
favorites, watchlists and caches — never the achievements table — so they
are modelled as predicates over a store snapshot `core` of arbitrary type
`σ`, which matches the claim's "no intervening Entity Store change"
hypothesis. -/
def check_achievements {σ : Type} (registry : List (String × String × (Int → σ → Bool)))
    (core : σ) (u : Int) (achs : AchList) : List String × AchList :=
  match registry with
  | [] => ([], achs)
  | (t, nm, cond) :: rest =>
      if cond u core then
        match add_achievement achs u t nm with
        | (true, a') =>
            let r := check_achievements rest core u a'
            (nm :: r.1, r.2)
        | (false, a') => check_achievements rest core u a'
      else check_achievements rest core u achs

/-- Whether a (user, kind) achievement row exists. -/
def has_achievement (achs : AchList) (u : Int) (t : String) : Bool :=
  achs.any (fun r => r.1 == u && r.2.1 == t)

/-- Characters kept by the `[^a-z0-9\-]` removal step of `create_slug`. -/
def slugAllowed (c : Char) : Bool :=
  (c.toNat ≥ 97 && c.toNat ≤ 122) || (c.toNat ≥ 48 && c.toNat ≤ 57) || c == '-'

/-- Whitespace as matched by the `\s` step of `create_slug` (ASCII part;
the subsequent non-alphanumeric removal makes the exact class irrelevant to
the proved properties). -/
def pySpace (c : Char) : Bool :=
  c == ' ' || c == '\t' || c == '\n' || c == '\r' || c == '\x0b' || c == '\x0c'

/-- `re.sub(r'\s+', '-', s)`: each maximal whitespace run becomes one
hyphen.  `pending` records whether we are inside a run whose hyphen was
already emitted. -/
def subSpaceRuns (pending : Bool) : List Char → List Char
  | [] => []
  | c :: cs =>
      if pySpace c then
        if pending then subSpaceRuns true cs
        else '-' :: subSpaceRuns true cs
      else c :: subSpaceRuns false cs

/-- `re.sub(r'\-+', '-', s)`: collapse hyphen runs to a single hyphen. -/
def collapseHyphens (pending : Bool) : List Char → List Char
  | [] => []
  | c :: cs =>
      if c == '-' then
        if pending then collapseHyphens true cs
        else '-' :: collapseHyphens true cs
      else c :: collapseHyphens false cs

/-- Python `str.strip('-')` on one side: drop leading hyphens. -/
def dropHyphens (l : List Char) : List Char := l.dropWhile (· == '-')

/-- Python `str.strip('-')`: drop hyphens from both ends. -/
def stripHyphens (l : List Char) : List Char :=
  ((dropHyphens l).reverse.dropWhile (· == '-')).reverse

/-- `create_slug`: lower-case, turn whitespace runs into hyphens, delete
everything outside `[a-z0-9-]`, collapse hyphen runs, strip edge hyphens.
Python's Unicode `str.lower` is modelled by `Char.toLower`; the theorems
proved about the slug never depend on the case-mapping because the
character filter runs afterwards. -/
def create_slug (title : String) : List Char :=
  stripHyphens (collapseHyphens false
    ((subSpaceRuns false (title.toList.map Char.toLower)).filter slugAllowed))

/-- No two consecutive hyphens occur in the character list. -/
def noDoubleHyphen : List Char → Bool
  | [] => true
  | [_] => true
  | a :: b :: rest => !(a == '-' && b == '-') && noDoubleHyphen (b :: rest)

/-- Python `int(str)` restricted to the shapes the callback data can carry:
optional surrounding ASCII whitespace, an optional sign, then at least one
ASCII digit.  Returns `none` where Python raises `ValueError`. -/
def pyIntOfChars (l : List Char) : Option Int :=
  let t := (l.dropWhile pySpace).reverse.dropWhile pySpace |>.reverse
  let core : List Char × Bool :=
    match t with
    | '-' :: rest => (rest, true)
    | '+' :: rest => (rest, false)
    | _ => (t, false)
  if core.1 ≠ [] && core.1.all (·.isDigit) then
    let n : Nat := core.1.foldl (fun acc c => acc * 10 + (c.toNat - 48)) 0
    some (if core.2 then -(n : Int) else (n : Int))
  else none

/-- Python dict increment `genre_counter[genre] = genre_counter.get(genre, 0) + 1`
on an insertion-ordered association list: an existing key is updated in
place (keeping its position), a new key is appended at the end — exactly
the insertion-order semantics of a Python dict. -/
def tallyIncr : List (String × Nat) → String → List (String × Nat)
  | [], g => [(g, 1)]
  | p :: rest, g =>
      if p.1 == g then (p.1, p.2 + 1) :: rest else p :: tallyIncr rest g

/-- The count stored for a genre in the tally (0 when absent). -/
def tallyCount (l : List (String × Nat)) (g : String) : Nat :=
  match l.find? (fun p => p.1 == g) with
  | some p => p.2
  | none => 0

/-- First-occurrence deduplication of a list, skipping elements of `seen`. -/
def firstSeen {α : Type} [BEq α] (seen : List α) : List α → List α
  | [] => []
  | x :: xs =>
      if seen.contains x then firstSeen seen xs
      else x :: firstSeen (seen ++ [x]) xs

/-- Insertion step of a descending insertion sort on naturals. -/
def insertNatDesc (c : Nat) : List Nat → List Nat
  | [] => [c]
  | d :: ds => if c ≤ d then d :: insertNatDesc c ds else c :: d :: ds

/-- Descending insertion sort on naturals. -/
def sortNatDesc : List Nat → List Nat
  | [] => []
  | c :: cs => insertNatDesc c (sortNatDesc cs)

/-- Python's `sorted(genre_counter.items(), key=lambda x: x[1], reverse=True)`:
a *stable* descending sort by count.  The unique stable result is obtained
by concatenating, for each distinct count value in descending order, the
entries carrying that count in their original relative order. -/
def py_sorted_desc (l : List (String × Nat)) : List (String × Nat) :=
  ((sortNatDesc (firstSeen [] (l.map (·.2)))).map
      (fun c => l.filter (fun p => p.2 == c))).flatten

/-- The stream of genre names contributed by the known-set ids, in
iteration order, threading the cache writes that
`get_anime_by_id` performs on misses (entities that resolve to nothing
contribute no genres, matching `if anime and 'genres' in anime`). -/
def genre_stream (net : Int → Option Anime) (s : DBState) : List Int → List String
  | [] => []
  | id :: rest =>
      let r := resolve_anime net s id
      (match r.1 with
        | some a => a.genres.map (·.name)
        | none => []) ++ genre_stream net r.2 rest

/-- The genre-frequency loop of `get_personal_recommendations` (lines
641-651): fold the known-set ids, resolving each through
cache-then-network and tallying every genre occurrence. -/
def genre_counter_from (net : Int → Option Anime) (s : DBState)
    (acc : List (String × Nat)) : List Int → List (String × Nat) × DBState
  | [] => (acc, s)
  | id :: rest =>
      let r := resolve_anime net s id
      let acc' :=
        match r.1 with
        | some a => (a.genres.map (·.name)).foldl tallyIncr acc
        | none => acc
      genre_counter_from net r.2 acc' rest

/-- The finished genre tally for a known-set enumeration. -/
def genre_counter (net : Int → Option Anime) (s : DBState) (ids : List Int) :
    List (String × Nat) :=
  (genre_counter_from net s [] ids).1

/-- `top_genres` of `get_personal_recommendations`: the three most frequent
tally entries under the stable descending sort. -/
def top_genres (net : Int → Option Anime) (s : DBState) (ids : List Int) :
    List (String × Nat) :=
  (py_sorted_desc (genre_counter net s ids)).take 3

/-- Network oracle for the recommendation engine, at the level of the
values the client functions return: `byId` abstracts `get_anime_by_id`'s
network request, `byGenre` abstracts `search_anime_by_genre`, and
`topAnime` abstracts `get_top_anime`, which returns the *pair*
`(anime_list, last_visible_page)` on every path. -/
structure NetOracle where
  byId : Int → Option Anime
  byGenre : String → Nat → List Anime
  topAnime : String → Int → Nat → List Anime × Nat

/-- What `get_personal_recommendations` returns: on the empty-user path it
forwards `get_top_anime`'s 2-tuple unchanged, on the personalised path it
builds a plain list. -/
inductive RecoOutcome where
  | topPair (animes : List Anime) (lastPage : Nat)
  | recList (animes : List Anime)
  deriving DecidableEq

/-- The inner loop over one genre's search results: append a result unless
its id is in the known set or already selected; stop once `limit` is
reached. -/
def addGenreRecs (limit : Nat) (known : List Int) :
    List Anime → List Anime → List Anime
  | recs, [] => recs
  | recs, rec :: rest =>
      if known.contains rec.mal_id || (recs.map (·.mal_id)).contains rec.mal_id then
        addGenreRecs limit known recs rest
      else
        let recs' := recs ++ [rec]
        if limit ≤ recs'.length then recs' else addGenreRecs limit known recs' rest

/-- The outer loop over the top genres: process a genre's results, then
stop when `limit` is reached (the source checks after each genre). -/
def genreLoop (oracle : NetOracle) (limit : Nat) (known : List Int) :
    List String → List Anime → List Anime
  | [], recs => recs
  | g :: gs, recs =>
      let recs' := addGenreRecs limit known recs (oracle.byGenre g limit)
      if limit ≤ recs'.length then recs' else genreLoop oracle limit known gs recs'

/-- `get_personal_recommendations`.  `enum` models CPython's iteration
order over `all_anime_ids` (a `set` built by inserting the favourite ids
and then the watch-record ids); it is deterministic for a fixed insertion
sequence but implementation-defined, so it is a parameter.

Two behaviours of the source are worth flagging:
* the empty-user fallback `return get_top_anime(limit=limit)` returns the
  2-tuple `(anime_list, last_visible_page)`, not a list;
* the popularity backfill `top_anime = get_top_anime(limit=limit * 2)`
  followed by `for anime in top_anime: ... anime['mal_id']` iterates that
  same 2-tuple, so its first iteration subscripts a *list* with the string
  key `'mal_id'` and raises `TypeError`.  Hence every run that reaches the
  backfill (fewer than `limit` genre recommendations) raises. -/
def get_personal_recommendations (oracle : NetOracle) (enum : List Int → List Int)
    (s : DBState) (u : Int) (limit : Nat) : Except PyErr RecoOutcome :=
  let favorites := get_favorites s u
  let watchlist := get_watchlist s u
  if favorites.isEmpty && watchlist.isEmpty then
    .ok (.topPair (oracle.topAnime "all" 1 limit).1 (oracle.topAnime "all" 1 limit).2)
  else
    let known := enum (favorites ++ watchlist.map (·.1))
    let tally := genre_counter oracle.byId s known
    let tops := (py_sorted_desc tally).take 3
    let recs := genreLoop oracle limit known (tops.map (·.1)) []
    if recs.length < limit then .error .typeError
    else .ok (.recList (recs.take limit))

/-- Anime record builder for concrete test states: all optional fields
absent, genres given by name. -/
def testAnime (id : Int) (gs : List String) : Anime :=
  { mal_id := id
    title := none
    title_japanese := none
    title_english := none
    images := ⟨none⟩
    synopsis := none
    score := none
    episodes := none
    status := none
    year := none
    genres := gs.map (fun g => Named.mk g none none)
    studios := []
    producers := []
    duration := none
    rating := none
    source := none
    trailer := none
    season := none }

/-- C1 (code_bug evaluation): `update_watchlist` does not preserve
unspecified fields.  At the failing input — an existing record
(status = watching, score = 8, progress = 5) followed by a status-only
update — the `INSERT OR REPLACE` rebuilds the row from column defaults:
the stored score becomes NULL and the stored progress becomes 0, although
the claim requires them to keep their prior values. -/
theorem c1_partial_update_clobbers_eval :
    get_watch_status
        (update_watchlist DBState.empty 1 100 .watching (some 8) (some 5))
        1 100 = some ⟨.watching, some 8, 5⟩ ∧
    get_watch_status
        (update_watchlist
          (update_watchlist DBState.empty 1 100 .watching (some 8) (some 5))
          1 100 .completed none none)
        1 100 = some ⟨.completed, none, 0⟩ ∧
    get_watch_status
        (update_watchlist
          (update_watchlist DBState.empty 1 100 .watching (some 8) (some 5))
          1 100 .completed none none)
        1 100 ≠ some ⟨.completed, some 8, 5⟩ := by
  refine ⟨rfl, rfl, ?_⟩
  decide

/-- C2 (code_bug evaluation): for a user with empty favorites and empty
watch records, `get_personal_recommendations` returns the raw 2-tuple
`(anime_list, last_visible_page)` produced by `get_top_anime`, not a list
of at most `limit` anime records; in particular no run of the fallback
yields the plain recommendation-list shape that the caller iterates. -/
theorem c2_empty_user_fallback_returns_tuple_eval :
    get_personal_recommendations
        ⟨fun _ => none, fun _ _ => [],
          fun _ _ _ => ([testAnime 10 [], testAnime 11 []], 3)⟩
        id DBState.empty 7 5 =
      .ok (.topPair [testAnime 10 [], testAnime 11 []] 3) ∧
    ∀ l, get_personal_recommendations
        ⟨fun _ => none, fun _ _ => [],
          fun _ _ _ => ([testAnime 10 [], testAnime 11 []], 3)⟩
        id DBState.empty 7 5 ≠ .ok (.recList l) := by
  refine ⟨rfl, ?_⟩
  intro l h
  rw [show get_personal_recommendations
        ⟨fun _ => none, fun _ _ => [],
          fun _ _ _ => ([testAnime 10 [], testAnime 11 []], 3)⟩
        id DBState.empty 7 5 =
      .ok (.topPair [testAnime 10 [], testAnime 11 []] 3) from rfl] at h
  exact RecoOutcome.noConfusion (Except.ok.inj h)

/-- A list whose `any p` is `false` filters by `p` to the empty list. -/
theorem filter_eq_nil_of_any_false {α : Type} (p : α → Bool) :
    ∀ l : List α, l.any p = false → l.filter p = []
  | [], _ => rfl
  | x :: xs, h => by
      simp only [List.any_cons, Bool.or_eq_false_iff] at h
      simp [List.filter_cons, h.1, filter_eq_nil_of_any_false p xs h.2]

/-- Adding any achievement row preserves existing (user, kind) presence. -/
theorem has_achievement_add (achs : AchList) (u u' : Int) (t t' n' : String) :
    has_achievement achs u t = true →
    has_achievement (add_achievement achs u' t' n').2 u t = true := by
  intro h
  unfold add_achievement
  by_cases hc : achs.any (fun r => r.1 == u' && r.2.1 == t') = true
  · simpa [hc] using h
  · simp only [Bool.not_eq_true] at hc
    simp only [hc, Bool.false_eq_true, if_false]
    unfold has_achievement at h ⊢
    simp [List.any_cons, h]

/-- `check_achievements` never removes achievement rows: presence of a
(user, kind) grant is preserved. -/
theorem has_achievement_check {σ : Type}
    (registry : List (String × String × (Int → σ → Bool))) (core : σ) (u' : Int) :
    ∀ (achs : AchList) (u : Int) (t : String), has_achievement achs u t = true →
      has_achievement (check_achievements registry core u' achs).2 u t = true := by
  induction registry with
  | nil => intro achs u t h; simpa [check_achievements] using h
  | cons e rest ih =>
      intro achs u t h
      obtain ⟨t0, nm0, c0⟩ := e
      unfold check_achievements
      by_cases hc : c0 u' core = true
      · simp only [hc, if_true]
        have h' := has_achievement_add achs u u' t t0 nm0 h
        rcases hadd : add_achievement achs u' t0 nm0 with ⟨b, a'⟩
        have h'' : has_achievement a' u t = true := by rw [hadd] at h'; exact h'
        cases b
        · simpa using ih a' u t h''
        · simpa using ih a' u t h''
      · simp only [Bool.not_eq_true] at hc
        simp only [hc, Bool.false_eq_true, if_false]
        exact ih achs u t h

/-- After one pass of `check_achievements`, every registry entry whose
condition holds has a stored grant. -/
theorem check_achievements_covers {σ : Type} (core : σ) (u : Int) :
    ∀ (registry : List (String × String × (Int → σ → Bool))) (achs : AchList)
      (t nm : String) (c : Int → σ → Bool),
      (t, nm, c) ∈ registry → c u core = true →
      has_achievement (check_achievements registry core u achs).2 u t = true := by
  intro registry
  induction registry with
  | nil => intro achs t nm c hmem; cases hmem
  | cons e rest ih =>
      intro achs t nm c hmem hcond
      obtain ⟨t0, nm0, c0⟩ := e
      rcases List.mem_cons.mp hmem with heq | htail
      · -- the entry is the head of the registry
        simp only [Prod.mk.injEq] at heq
        obtain ⟨h1, h2, h3⟩ := heq
        subst h1; subst h2; subst h3
        unfold check_achievements
        simp only [hcond, if_true]
        rcases hadd : add_achievement achs u t nm with ⟨b, a'⟩
        have hhas : has_achievement a' u t = true := by
          unfold add_achievement at hadd
          by_cases hin : achs.any (fun r => r.1 == u && r.2.1 == t) = true
          · simp only [hin, if_true] at hadd
            have := hadd
            injection this with hb ha2
            subst ha2
            simpa [has_achievement] using hin
          · simp only [Bool.not_eq_true] at hin
            simp only [hin, Bool.false_eq_true, if_false] at hadd
            injection hadd with hb ha2
            subst ha2
            simp [has_achievement]
        cases b
        · simpa using has_achievement_check rest core u a' u t hhas
        · simpa using has_achievement_check rest core u a' u t hhas
      · -- the entry is in the tail
        unfold check_achievements
        by_cases hc : c0 u core = true
        · simp only [hc, if_true]
          rcases hadd : add_achievement achs u t0 nm0 with ⟨b, a'⟩
          cases b
          · simpa using ih a' t nm c htail hcond
          · simpa using ih a' t nm c htail hcond
        · simp only [Bool.not_eq_true] at hc
          simp only [hc, Bool.false_eq_true, if_false]
          exact ih achs t nm c htail hcond

/-- A pass of `check_achievements` over a table that already covers every
satisfied condition grants nothing and leaves the table unchanged. -/
theorem check_achievements_covered_noop {σ : Type} (core : σ) (u : Int) :
    ∀ (registry : List (String × String × (Int → σ → Bool))) (achs : AchList),
      (∀ (t nm : String) (c : Int → σ → Bool),
        (t, nm, c) ∈ registry → c u core = true → has_achievement achs u t = true) →
      check_achievements registry core u achs = ([], achs) := by
  intro registry
  induction registry with
  | nil => intro achs _; rfl
  | cons e rest ih =>
      intro achs hcov
      obtain ⟨t0, nm0, c0⟩ := e
      unfold check_achievements
      by_cases hc : c0 u core = true
      · simp only [hc, if_true]
        have hhas : has_achievement achs u t0 = true :=
          hcov t0 nm0 c0 (List.mem_cons_self _ _) hc
        have hadd : add_achievement achs u t0 nm0 = (false, achs) := by
          unfold add_achievement
          simpa [has_achievement] using hhas
        rw [hadd]
        exact ih achs (fun t nm c hm hcond => hcov t nm c (List.mem_cons_of_mem _ hm) hcond)
      · simp only [Bool.not_eq_true] at hc
        simp only [hc, Bool.false_eq_true, if_false]
        exact ih achs (fun t nm c hm hcond => hcov t nm c (List.mem_cons_of_mem _ hm) hcond)

/-- C4: achievement granting is idempotent.  (i) A second
`add_achievement` for the same (user, kind) returns `false` ("already
granted"), leaves the table unchanged, and the table holds exactly one row
for that pair when it held none before (otherwise the prior count).
(ii) Re-running `check_achievements` on the table produced by a previous
run, with the store snapshot unchanged, grants nothing and returns the
empty list of new names. -/
theorem c4_achievements_idempotent :
    (∀ (achs : AchList) (u : Int) (t n : String),
      (add_achievement (add_achievement achs u t n).2 u t n).1 = false ∧
      (add_achievement (add_achievement achs u t n).2 u t n).2 =
        (add_achievement achs u t n).2 ∧
      count_achievement (add_achievement achs u t n).2 u t =
        (if count_achievement achs u t = 0 then 1 else count_achievement achs u t)) ∧
    (∀ (σ : Type) (registry : List (String × String × (Int → σ → Bool)))
        (core : σ) (u : Int) (achs : AchList),
      check_achievements registry core u
          (check_achievements registry core u achs).2 =
        ([], (check_achievements registry core u achs).2)) := by
  constructor
  · intro achs u t n
    by_cases hin : achs.any (fun r => r.1 == u && r.2.1 == t) = true
    · have hcount : count_achievement achs u t ≠ 0 := by
        unfold count_achievement
        intro h0
        rw [List.length_eq_zero] at h0
        rcases List.any_eq_true.mp hin with ⟨r, hr, hpr⟩
        have : r ∈ achs.filter (fun r => r.1 == u && r.2.1 == t) :=
          List.mem_filter.mpr ⟨hr, hpr⟩
        rw [h0] at this
        cases this
      simp [add_achievement, hin, hcount]
    · simp only [Bool.not_eq_true] at hin
      have hfil : achs.filter (fun r => r.1 == u && r.2.1 == t) = [] :=
        filter_eq_nil_of_any_false _ achs hin
      have hcount0 : count_achievement achs u t = 0 := by
        unfold count_achievement; rw [hfil]; rfl
      simp [add_achievement, hin, count_achievement, List.filter_cons, hfil, hcount0]
  · intro σ registry core u achs
    exact check_achievements_covered_noop core u registry _
      (fun t nm c hm hcond => check_achievements_covers core u registry achs t nm c hm hcond)

/-- The name-only residue of a genre/studio/producer object after a cache
round trip: the name survives, the id and URL do not. -/
def name_only (g : Named) : Named := ⟨g.name, none, none⟩

/-- Projecting name-objects to their names and rebuilding yields the
name-only residues. -/
theorem named_project : ∀ l : List Named,
    List.map (fun n => Named.mk n none none) (l.map (fun x => x.name)) =
      l.map name_only
  | [] => rfl
  | _ :: xs => by simp [named_project xs, name_only]

/-- C6 amended: after one successful fetch through a cold cache, a second
`get_anime_by_id` for the same id performs no network call and returns the
*cache projection* of the fetched entity, never the entity itself in
general: the sixteen cached fields (the titles, synopsis, score, episodes,
status, year, duration, rating, source, and the genre/studio/producer
*names*) are reproduced; the `images` object is collapsed to the single
stored URL duplicated into both slots; the genre/studio/producer objects
come back as name-only residues (their ids and URLs are gone); and every
response field outside the cached columns — trailer, season, and the rest
— is absent from the rebuilt snapshot.  The read-back equals the fetched
snapshot only in the degenerate case where the record carried nothing the
projection destroys. -/
theorem c6_cache_roundtrip_projection (net : Int → Option Anime) (s : DBState)
    (id : Int) (a : Anime)
    (hcold : get_cached_anime s id = none) (hnet : net id = some a)
    (hid : a.mal_id = id) :
    (get_anime_by_id net s id).1 = some a ∧
    (get_anime_by_id net s id).2.2 = 1 ∧
    (get_anime_by_id net (get_anime_by_id net s id).2.1 id).2.2 = 0 ∧
    (get_anime_by_id net (get_anime_by_id net s id).2.1 id).1 =
      some { a with
        images := ⟨some ⟨extract_image_url a, extract_image_url a⟩⟩,
        genres := a.genres.map name_only,
        studios := a.studios.map name_only,
        producers := a.producers.map name_only,
        trailer := none,
        season := none } := by
  have h1 : get_anime_by_id net s id = (some a, cache_anime s a, 1) := by
    unfold get_anime_by_id
    rw [hcold, hnet]
  have h2 : get_cached_anime (cache_anime s a) id =
      some (reconstruct_anime id (project_anime a)) := by
    unfold get_cached_anime cache_anime
    simp [List.find?_cons, hid]
  have h3 : reconstruct_anime id (project_anime a) =
      { a with
        images := ⟨some ⟨extract_image_url a, extract_image_url a⟩⟩,
        genres := a.genres.map name_only,
        studios := a.studios.map name_only,
        producers := a.producers.map name_only,
        trailer := none,
        season := none } := by
    unfold reconstruct_anime project_anime
    cases a
    simp_all [named_project, name_only]
  refine ⟨by rw [h1], by rw [h1], ?_, ?_⟩
  · rw [h1]
    show (get_anime_by_id net (cache_anime s a) id).2.2 = 0
    unfold get_anime_by_id
    rw [h2]
  · rw [h1]
    show (get_anime_by_id net (cache_anime s a) id).1 =
      some { a with
        images := ⟨some ⟨extract_image_url a, extract_image_url a⟩⟩,
        genres := a.genres.map name_only,
        studios := a.studios.map name_only,
        producers := a.producers.map name_only,
        trailer := none,
        season := none }
    unfold get_anime_by_id
    rw [h2, h3]

/-- Concrete entity whose thumbnail and large image URLs differ, so the
image collapse alone is lossy for it. -/
def c6Anime : Anime :=
  { testAnime 5 ["Action"] with
    title := some "Example"
    images := ⟨some ⟨some "a", some "b"⟩⟩ }

/-- Network oracle serving `c6Anime` under id 5. -/
def c6net : Int → Option Anime := fun i => if i == 5 then some c6Anime else none

/-- Concrete entity whose image collapse is *lossless* (both URLs equal)
but which carries a trailer and a genre id — fields the cached columns do
not hold. -/
def c6Anime2 : Anime :=
  { testAnime 6 [] with
    title := some "Example 2"
    images := ⟨some ⟨some "x", some "x"⟩⟩
    trailer := some ⟨some "https://youtu.be/v"⟩
    genres := [⟨"Action", some 1, some "https://myanimelist.net/anime/genre/1"⟩] }

/-- Network oracle serving `c6Anime2` under id 6. -/
def c6net2 : Int → Option Anime := fun i => if i == 6 then some c6Anime2 else none

/-- C6 counterexample: with a cold cache, fetching id 5 returns `c6Anime`
(one network call), and the subsequent cache-served read returns a
*different* snapshot — the stored single image URL (`large_image_url`,
here "b") is substituted into both URL slots.  And even for `c6Anime2`,
whose image collapse is lossless, the read-back differs: the trailer and
the genre id/URL are not among the cached columns and do not come back.
The claimed exact reproduction fails. -/
theorem c6_cache_roundtrip_not_identical :
    (get_anime_by_id c6net DBState.empty 5).1 = some c6Anime ∧
    (get_anime_by_id c6net DBState.empty 5).2.2 = 1 ∧
    (get_anime_by_id c6net (get_anime_by_id c6net DBState.empty 5).2.1 5).2.2 = 0 ∧
    (get_anime_by_id c6net (get_anime_by_id c6net DBState.empty 5).2.1 5).1 ≠
      some c6Anime ∧
    (get_anime_by_id c6net2 DBState.empty 6).1 = some c6Anime2 ∧
    (get_anime_by_id c6net2 (get_anime_by_id c6net2 DBState.empty 6).2.1 6).1 ≠
      some c6Anime2 := by
  refine ⟨rfl, rfl, rfl, ?_, rfl, ?_⟩ <;> decide

/-- C6 witness: the amended theorem applied at the concrete input
(`c6net2`, cold cache, id 6): the read-back is exactly the projection —
collapsed images, name-only genre, no trailer. -/
theorem c6_cache_roundtrip_projection_witness :
    (get_anime_by_id c6net2 DBState.empty 6).1 = some c6Anime2 ∧
    (get_anime_by_id c6net2 (get_anime_by_id c6net2 DBState.empty 6).2.1 6).2.2 = 0 ∧
    (get_anime_by_id c6net2 (get_anime_by_id c6net2 DBState.empty 6).2.1 6).1 =
      some { c6Anime2 with
        images := ⟨some ⟨extract_image_url c6Anime2, extract_image_url c6Anime2⟩⟩,
        genres := c6Anime2.genres.map name_only,
        studios := c6Anime2.studios.map name_only,
        producers := c6Anime2.producers.map name_only,
        trailer := none,
        season := none } := by
  have h := c6_cache_roundtrip_projection c6net2 DBState.empty 6 c6Anime2 rfl rfl rfl
  exact ⟨h.1, h.2.2.1, h.2.2.2⟩

/-- Adjacent characters are not both hyphens. -/
def hyphenApart (a b : Char) : Prop := ¬(a = '-' ∧ b = '-')

instance : DecidableRel hyphenApart := fun a b => by
  unfold hyphenApart; infer_instance

/-- A filtered list satisfies the filtering predicate throughout. -/
theorem all_filter_self {α : Type} (p : α → Bool) :
    ∀ l : List α, (l.filter p).all p = true
  | [] => rfl
  | x :: xs => by
      by_cases h : p x <;> simp [List.filter_cons, h, all_filter_self p xs]

/-- `collapseHyphens` only emits characters of its input. -/
theorem all_collapseHyphens (p : Char → Bool) :
    ∀ (b : Bool) (l : List Char), l.all p = true →
      (collapseHyphens b l).all p = true
  | _, [], _ => rfl
  | b, c :: cs, h => by
      simp only [List.all_cons, Bool.and_eq_true] at h
      by_cases hc : c == '-'
      · have hceq : c = '-' := by simpa using hc
        subst hceq
        cases b
        · simp [collapseHyphens, List.all_cons, h.1, all_collapseHyphens p true cs h.2]
        · simp [collapseHyphens, all_collapseHyphens p true cs h.2]
      · simp [collapseHyphens, hc, List.all_cons, h.1, all_collapseHyphens p false cs h.2]

/-- Hyphen collapsing: with a pending hyphen the output never starts with a
hyphen, and in both modes the output has no two adjacent hyphens. -/
theorem collapse_props : ∀ l : List Char,
    ((collapseHyphens true l).head? = some '-' → False) ∧
    (collapseHyphens true l).Chain' hyphenApart ∧
    (collapseHyphens false l).Chain' hyphenApart
  | [] => ⟨by simp [collapseHyphens], by simp [collapseHyphens], by simp [collapseHyphens]⟩
  | c :: cs => by
      obtain ⟨ih1, ih2, ih3⟩ := collapse_props cs
      by_cases hc : c == '-'
      · have hceq : c = '-' := by simpa using hc
        subst hceq
        refine ⟨?_, ?_, ?_⟩
        · show ((collapseHyphens true ('-' :: cs)).head? = some '-' → False)
          unfold collapseHyphens
          simpa using ih1
        · show (collapseHyphens true ('-' :: cs)).Chain' hyphenApart
          unfold collapseHyphens
          simpa using ih2
        · show (collapseHyphens false ('-' :: cs)).Chain' hyphenApart
          unfold collapseHyphens
          simp only [beq_self_eq_true, if_true, Bool.false_eq_true, if_false]
          rw [List.chain'_cons']
          refine ⟨?_, ih2⟩
          intro b hb hcontra
          exact ih1 (by rw [← hcontra.2]; exact hb)
      · have hcne : c ≠ '-' := by simpa using hc
        refine ⟨?_, ?_, ?_⟩
        · show ((collapseHyphens true (c :: cs)).head? = some '-' → False)
          unfold collapseHyphens
          simp only [hc, Bool.false_eq_true, if_false, List.head?_cons]
          intro h
          exact hcne (by injection h)
        · show (collapseHyphens true (c :: cs)).Chain' hyphenApart
          unfold collapseHyphens
          simp only [hc, Bool.false_eq_true, if_false]
          rw [List.chain'_cons']
          exact ⟨fun b _ hcontra => hcne hcontra.1, ih3⟩
        · show (collapseHyphens false (c :: cs)).Chain' hyphenApart
          unfold collapseHyphens
          simp only [hc, Bool.false_eq_true, if_false]
          rw [List.chain'_cons']
          exact ⟨fun b _ hcontra => hcne hcontra.1, ih3⟩

/-- `dropWhile` preserves the absence of adjacent hyphens (or any
`Chain'`). -/
theorem chain'_dropWhile {R : Char → Char → Prop} (p : Char → Bool) :
    ∀ l : List Char, l.Chain' R → (l.dropWhile p).Chain' R
  | [], h => h
  | x :: xs, h => by
      rw [List.dropWhile_cons]
      by_cases hp : p x
      · simpa [hp] using chain'_dropWhile p xs h.tail
      · simpa [hp] using h

/-- The head of a `dropWhile` result never satisfies the dropped
predicate. -/
theorem head_dropWhile_false (p : Char → Bool) :
    ∀ l : List Char, ∀ a, (l.dropWhile p).head? = some a → p a = false
  | [], a, h => by cases h
  | x :: xs, a, h => by
      rw [List.dropWhile_cons] at h
      by_cases hp : p x
      · simp only [hp, if_true] at h
        exact head_dropWhile_false p xs a h
      · simp only [hp, Bool.false_eq_true, if_false, List.head?_cons,
          Option.some.injEq] at h
        subst h
        simpa using hp

/-- A nonempty suffix has the same last element as the whole list. -/
theorem getLast?_of_suffix {α : Type} {l' l : List α}
    (h : l' <:+ l) (hne : l' ≠ []) : l'.getLast? = l.getLast? := by
  obtain ⟨t, rfl⟩ := h
  rw [List.getLast?_append_of_ne_nil _ hne]

/-- `hyphenApart` is symmetric. -/
theorem hyphenApart_symm {a b : Char} (h : hyphenApart a b) : hyphenApart b a :=
  fun hc => h ⟨hc.2, hc.1⟩

/-- Stripping edge hyphens keeps every remaining character from the input,
hence preserves `all p`. -/
theorem all_stripHyphens (p : Char → Bool) (l : List Char)
    (h : l.all p = true) : (stripHyphens l).all p = true := by
  rw [List.all_eq_true] at h ⊢
  intro x hx
  apply h
  unfold stripHyphens dropHyphens at hx
  rw [List.mem_reverse] at hx
  have hx2 := (List.dropWhile_sublist _).subset hx
  rw [List.mem_reverse] at hx2
  exact (List.dropWhile_sublist _).subset hx2

/-- Stripping edge hyphens preserves the no-adjacent-hyphens property. -/
theorem chain'_stripHyphens (l : List Char)
    (h : l.Chain' hyphenApart) : (stripHyphens l).Chain' hyphenApart := by
  unfold stripHyphens dropHyphens
  have h1 : ((l.dropWhile (· == '-'))).Chain' hyphenApart := chain'_dropWhile _ l h
  have h2 : ((l.dropWhile (· == '-')).reverse).Chain' hyphenApart := by
    rw [List.chain'_reverse]
    exact h1.imp (fun _ _ hab => hyphenApart_symm hab)
  have h3 := chain'_dropWhile (· == '-') _ h2
  rw [List.chain'_reverse]
  exact h3.imp (fun _ _ hab => hyphenApart_symm hab)

/-- The stripped list never starts with a hyphen. -/
theorem stripHyphens_head (l : List Char) :
    ((stripHyphens l).head? == some '-') = false := by
  rw [beq_eq_false_iff_ne]
  intro hd
  unfold stripHyphens at hd
  rw [List.head?_reverse] at hd
  have hne : (dropHyphens l).reverse.dropWhile (· == '-') ≠ [] := by
    intro h0
    rw [h0] at hd
    cases hd
  rw [getLast?_of_suffix (List.dropWhile_suffix _) hne] at hd
  rw [List.getLast?_reverse] at hd
  have := head_dropWhile_false (· == '-') l '-' hd
  simp at this

/-- The stripped list never ends with a hyphen. -/
theorem stripHyphens_last (l : List Char) :
    ((stripHyphens l).getLast? == some '-') = false := by
  rw [beq_eq_false_iff_ne]
  intro hd
  unfold stripHyphens at hd
  rw [List.getLast?_reverse] at hd
  have := head_dropWhile_false (· == '-') (dropHyphens l).reverse '-' hd
  simp at this

/-- C10: every `create_slug` output consists only of lowercase ASCII
letters, digits and hyphens (`slugAllowed`), contains no two adjacent
hyphens, and neither starts nor ends with a hyphen. -/
theorem c10_create_slug_shape (title : String) :
    (create_slug title).all slugAllowed = true ∧
    (create_slug title).Chain' hyphenApart ∧
    ((create_slug title).head? == some '-') = false ∧
    ((create_slug title).getLast? == some '-') = false := by
  unfold create_slug
  refine ⟨?_, ?_, stripHyphens_head _, stripHyphens_last _⟩
  · exact all_stripHyphens _ _ (all_collapseHyphens _ false _ (all_filter_self _ _))
  · exact chain'_stripHyphens _ (collapse_props _).2.2

/-- C10 witness: the theorem applied at a concrete title. -/
theorem c10_create_slug_shape_witness :
    (create_slug "  Attack -- on Titan!  ").all slugAllowed = true ∧
    (create_slug "  Attack -- on Titan!  ").Chain' hyphenApart ∧
    ((create_slug "  Attack -- on Titan!  ").head? == some '-') = false ∧
    ((create_slug "  Attack -- on Titan!  ").getLast? == some '-') = false :=
  c10_create_slug_shape "  Attack -- on Titan!  "

/-- `tallyIncr` bumps exactly the requested genre's count. -/
theorem tallyCount_incr (g g' : String) :
    ∀ l : List (String × Nat),
      tallyCount (tallyIncr l g) g' =
        if g = g' then tallyCount l g' + 1 else tallyCount l g'
  | [] => by
      by_cases h : g = g'
      · subst h; simp [tallyIncr, tallyCount, List.find?]
      · simp [tallyIncr, tallyCount, List.find?, h,
          show (g == g') = false from beq_eq_false_iff_ne.mpr h]
  | p :: rest => by
      by_cases hp : p.1 == g
      · have hp' : p.1 = g := by simpa using hp
        by_cases h : g = g'
        · subst h
          simp [tallyIncr, hp, tallyCount, List.find?_cons,
            show (p.1 == g) = true from hp, hp']
        · have hne : (p.1 == g') = false :=
            beq_eq_false_iff_ne.mpr (by rw [hp']; exact h)
          simp [tallyIncr, hp, tallyCount, List.find?_cons, hne, h]
      · by_cases h : g = g'
        · subst h
          simp [tallyIncr, hp, tallyCount, List.find?_cons]
          by_cases hq : p.1 == g
          · exact absurd hq (by simpa using hp)
          · simpa [tallyCount, hq] using tallyCount_incr g g rest
        · simp only [tallyIncr, hp, Bool.false_eq_true, if_false]
          by_cases hq : p.1 == g'
          · simp [tallyCount, List.find?_cons, hq, h]
          · simpa [tallyCount, List.find?_cons, hq, h] using tallyCount_incr g g' rest

/-- Folding `tallyIncr` over a stream counts each genre's occurrences. -/
theorem tallyCount_foldl (g : String) :
    ∀ (st : List String) (acc : List (String × Nat)),
      tallyCount (st.foldl tallyIncr acc) g = tallyCount acc g + st.count g
  | [], acc => by simp
  | x :: xs, acc => by
      rw [List.foldl_cons, tallyCount_foldl g xs, tallyCount_incr, List.count_cons]
      by_cases h : x = g
      · subst h; simp; omega
      · simp [h, show (g == x) = false from beq_eq_false_iff_ne.mpr (Ne.symm h)]

/-- Unfolding equation for `firstSeen` on a cons cell. -/
theorem firstSeen_cons {α : Type} [BEq α] (seen : List α) (x : α) (xs : List α) :
    firstSeen seen (x :: xs) =
      if seen.contains x then firstSeen seen xs
      else x :: firstSeen (seen ++ [x]) xs := rfl

/-- `tallyIncr` leaves the key sequence unchanged for known genres and
appends new genres at the end — Python dict insertion order. -/
theorem keys_tallyIncr (g : String) :
    ∀ l : List (String × Nat),
      (tallyIncr l g).map Prod.fst =
        if (l.map Prod.fst).contains g then l.map Prod.fst
        else l.map Prod.fst ++ [g]
  | [] => by simp [tallyIncr]
  | p :: rest => by
      by_cases hp : p.1 == g
      · have hp' : p.1 = g := by simpa using hp
        simp [tallyIncr, hp, List.contains_cons,
          show (g == p.1) = true from by simp [hp']]
      · have hgp : (g == p.1) = false :=
          beq_eq_false_iff_ne.mpr (fun h => by simp [h] at hp)
        have hstep : (tallyIncr (p :: rest) g).map Prod.fst =
            p.1 :: (tallyIncr rest g).map Prod.fst := by
          simp [tallyIncr, hp]
        rw [hstep, keys_tallyIncr g rest, List.map_cons, List.contains_cons, hgp,
          Bool.false_or]
        cases hc : (rest.map Prod.fst).contains g <;> simp [hc]

/-- The key sequence of a tally fold: the accumulator's keys followed by
the stream's first-occurrence-ordered new genres. -/
theorem keys_foldl :
    ∀ (st : List String) (acc : List (String × Nat)),
      (st.foldl tallyIncr acc).map Prod.fst =
        acc.map Prod.fst ++ firstSeen (acc.map Prod.fst) st
  | [], acc => by simp [firstSeen]
  | x :: xs, acc => by
      rw [List.foldl_cons, keys_foldl xs (tallyIncr acc x), keys_tallyIncr x acc,
        firstSeen_cons]
      cases h : (acc.map Prod.fst).contains x
      · simp only [Bool.false_eq_true, if_false]
        rw [List.append_assoc]
        rfl
      · simp only [if_true]

/-- Unfolding equation for `insertNatDesc` on a cons cell. -/
theorem insertNatDesc_cons (c d : Nat) (ds : List Nat) :
    insertNatDesc c (d :: ds) =
      if c ≤ d then d :: insertNatDesc c ds else c :: d :: ds := rfl

/-- Membership in `insertNatDesc`. -/
theorem mem_insertNatDesc (x c : Nat) :
    ∀ l : List Nat, x ∈ insertNatDesc c l ↔ x = c ∨ x ∈ l
  | [] => by simp [insertNatDesc]
  | d :: ds => by
      by_cases h : c ≤ d
      · rw [insertNatDesc_cons, if_pos h]
        simp only [List.mem_cons, mem_insertNatDesc x c ds]
        tauto
      · rw [insertNatDesc_cons, if_neg h]
        simp only [List.mem_cons]

/-- Membership in `sortNatDesc`. -/
theorem mem_sortNatDesc (x : Nat) :
    ∀ l : List Nat, x ∈ sortNatDesc l ↔ x ∈ l
  | [] => Iff.rfl
  | c :: cs => by
      simp [sortNatDesc, mem_insertNatDesc, mem_sortNatDesc x cs]

/-- `insertNatDesc` preserves descending sortedness. -/
theorem pairwise_insertNatDesc (c : Nat) :
    ∀ l : List Nat, l.Pairwise (fun a b => b ≤ a) →
      (insertNatDesc c l).Pairwise (fun a b => b ≤ a)
  | [], _ => by simp [insertNatDesc]
  | d :: ds, h => by
      rw [List.pairwise_cons] at h
      by_cases hc : c ≤ d
      · simp only [insertNatDesc, hc, if_true]
        rw [List.pairwise_cons]
        refine ⟨?_, pairwise_insertNatDesc c ds h.2⟩
        intro x hx
        rcases (mem_insertNatDesc x c ds).mp hx with rfl | hxds
        · exact hc
        · exact h.1 x hxds
      · simp only [insertNatDesc, hc, if_false]
        rw [List.pairwise_cons]
        refine ⟨?_, List.pairwise_cons.mpr h⟩
        intro x hx
        rcases List.mem_cons.mp hx with rfl | hxds
        · omega
        · exact le_trans (h.1 x hxds) (by omega)

/-- `sortNatDesc` sorts descending. -/
theorem pairwise_sortNatDesc :
    ∀ l : List Nat, (sortNatDesc l).Pairwise (fun a b => b ≤ a)
  | [] => List.Pairwise.nil
  | c :: cs => pairwise_insertNatDesc c (sortNatDesc cs) (pairwise_sortNatDesc cs)

/-- `List.contains` on a lawful `BEq` decides membership. -/
theorem contains_false_iff {α : Type} [BEq α] [LawfulBEq α] (l : List α) (x : α) :
    l.contains x = false ↔ x ∉ l := by
  rw [show l.contains x = l.elem x from rfl, ← Bool.not_eq_true]
  exact not_congr List.elem_iff

/-- An element of the stream that is not yet seen appears in the
first-occurrence dedup. -/
theorem mem_firstSeen {α : Type} [BEq α] [LawfulBEq α] (x : α) :
    ∀ (st seen : List α), x ∈ st → seen.contains x = false →
      x ∈ firstSeen seen st
  | [], _, hx, _ => absurd hx (List.not_mem_nil x)
  | y :: ys, seen, hx, hseen => by
      rw [firstSeen_cons]
      cases hy : seen.contains y
      · simp only [Bool.false_eq_true, if_false]
        rcases List.mem_cons.mp hx with rfl | htail
        · exact List.mem_cons_self _ _
        · by_cases hxy : x = y
          · subst hxy; exact List.mem_cons_self _ _
          · refine List.mem_cons_of_mem _ (mem_firstSeen x ys (seen ++ [y]) htail ?_)
            rw [contains_false_iff] at hseen ⊢
            intro hx2
            rcases List.mem_append.mp hx2 with hl | hr
            · exact hseen hl
            · exact hxy (by simpa using hr)
      · simp only [if_true]
        rcases List.mem_cons.mp hx with rfl | htail
        · rw [hy] at hseen; cases hseen
        · exact mem_firstSeen x ys seen htail hseen

/-- The threaded tally loop is the flat fold of `tallyIncr` over the genre
stream. -/
theorem genre_counter_from_eq (net : Int → Option Anime) :
    ∀ (ids : List Int) (s : DBState) (acc : List (String × Nat)),
      (genre_counter_from net s acc ids).1 =
        (genre_stream net s ids).foldl tallyIncr acc
  | [], _, _ => rfl
  | id :: rest, s, acc => by
      unfold genre_counter_from genre_stream
      cases hr : (resolve_anime net s id).1 with
      | some a =>
          simp only [hr, List.foldl_append]
          exact genre_counter_from_eq net rest _ _
      | none =>
          simp only [hr, List.nil_append]
          exact genre_counter_from_eq net rest _ _

/-- All entries of a count-filtered block carry that count, so the block
is internally `≥`-sorted. -/
theorem pairwise_filter_count (c : Nat) :
    ∀ l : List (String × Nat),
      (l.filter (fun p => p.2 == c)).Pairwise
        (fun x y : String × Nat => y.2 ≤ x.2)
  | [] => List.Pairwise.nil
  | p :: rest => by
      rw [List.filter_cons]
      by_cases hp : p.2 == c
      · simp only [hp, if_true]
        rw [List.pairwise_cons]
        refine ⟨?_, pairwise_filter_count c rest⟩
        intro y hy
        have h2 : p.2 = c := by simpa using hp
        have h3 : y.2 = c := by simpa using (List.mem_filter.mp hy).2
        rw [h2, h3]
      · simp only [hp, Bool.false_eq_true, if_false]
        exact pairwise_filter_count c rest

/-- `py_sorted_desc` is descending in the counts. -/
theorem py_sorted_desc_sorted (l : List (String × Nat)) :
    (py_sorted_desc l).Pairwise (fun x y => y.2 ≤ x.2) := by
  unfold py_sorted_desc
  rw [List.pairwise_flatten]
  constructor
  · intro l' hl'
    rcases List.mem_map.mp hl' with ⟨c, _, rfl⟩
    exact pairwise_filter_count c l
  · rw [List.pairwise_map]
    refine List.Pairwise.imp ?_ (pairwise_sortNatDesc _)
    intro c1 c2 hle x hx y hy
    have hx2 : x.2 = c1 := by simpa using (List.mem_filter.mp hx).2
    have hy2 : y.2 = c2 := by simpa using (List.mem_filter.mp hy).2
    omega

/-- Each block of a flattened block decomposition embeds as a sublist. -/
theorem sublist_flatten_of_mem {α : Type} (f : Nat → List α) :
    ∀ (cs : List Nat) (c : Nat), c ∈ cs →
      List.Sublist (f c) ((cs.map f).flatten)
  | [], c, h => absurd h (List.not_mem_nil c)
  | d :: ds, c, h => by
      rw [List.map_cons, List.flatten_cons]
      rcases List.mem_cons.mp h with rfl | htail
      · exact List.sublist_append_left _ _
      · exact (sublist_flatten_of_mem f ds c htail).trans
          (List.sublist_append_right _ _)

/-- Stability of the Python sort model: two tally entries with equal
counts keep their relative (first-occurrence) order. -/
theorem py_sorted_desc_stable (l : List (String × Nat)) (a b : String × Nat)
    (hs : List.Sublist [a, b] l) (hc : a.2 = b.2) :
    List.Sublist [a, b] (py_sorted_desc l) := by
  have hmem : a ∈ l := hs.subset (List.mem_cons_self _ _)
  have hcmem : a.2 ∈ l.map (·.2) := List.mem_map_of_mem _ hmem
  have h1 : a.2 ∈ firstSeen [] (l.map (·.2)) :=
    mem_firstSeen a.2 _ [] hcmem rfl
  have h2 : a.2 ∈ sortNatDesc (firstSeen [] (l.map (·.2))) :=
    (mem_sortNatDesc _ _).mpr h1
  have hfb : (b.2 == a.2) = true := by simp [hc]
  have hfil : List.Sublist [a, b] (l.filter (fun p => p.2 == a.2)) := by
    have h3 := List.Sublist.filter (fun p => p.2 == a.2) hs
    rwa [show List.filter (fun p => p.2 == a.2) [a, b] = [a, b] from by
      simp [List.filter_cons, hfb]] at h3
  unfold py_sorted_desc
  exact hfil.trans
    (sublist_flatten_of_mem (fun c => l.filter (fun p => p.2 == c)) _ _ h2)

/-- C8: over any known-set enumeration, (i) the tally counts every genre
occurrence across the known-set entities, (ii) the tally's key order is
the first-occurrence order of genres in the known-set stream (Python dict
insertion order), (iii) the sorted tally is descending by frequency,
(iv) entries with equal frequency keep their first-occurrence order
(stability of Python's `sorted` with `reverse=True`), and (v) the top-3
selection is the 3-prefix of that sorted tally.  The whole computation is
a pure function of the enumeration and the resolved entities, hence
deterministic across repeated runs with identical input. -/
theorem c8_genre_tally_stable (net : Int → Option Anime) (s : DBState)
    (ids : List Int) :
    (∀ g : String,
      tallyCount (genre_counter net s ids) g =
        (genre_stream net s ids).count g) ∧
    (genre_counter net s ids).map Prod.fst =
      firstSeen [] (genre_stream net s ids) ∧
    (py_sorted_desc (genre_counter net s ids)).Pairwise
      (fun x y => y.2 ≤ x.2) ∧
    (∀ a b : String × Nat,
      List.Sublist [a, b] (genre_counter net s ids) → a.2 = b.2 →
      List.Sublist [a, b] (py_sorted_desc (genre_counter net s ids))) ∧
    top_genres net s ids = (py_sorted_desc (genre_counter net s ids)).take 3 := by
  refine ⟨?_, ?_, py_sorted_desc_sorted _,
    fun a b hs hc => py_sorted_desc_stable _ a b hs hc, rfl⟩
  · intro g
    unfold genre_counter
    rw [genre_counter_from_eq]
    simpa [tallyCount] using tallyCount_foldl g (genre_stream net s ids) []
  · unfold genre_counter
    rw [genre_counter_from_eq]
    simpa using keys_foldl (genre_stream net s ids) []

/-- Network oracle for the C8 witness: two entities with overlapping
genre lists. -/
def c8net : Int → Option Anime := fun i =>
  if i == 1 then some (testAnime 1 ["Action", "Comedy"])
  else if i == 2 then some (testAnime 2 ["Drama"]) else none

/-- C8 witness: the theorem applied at a concrete enumeration; the
stability clause is instantiated at the equal-frequency pair
(Action, Comedy), whose first-occurrence order survives sorting. -/
theorem c8_genre_tally_stable_witness :
    tallyCount (genre_counter c8net DBState.empty [1, 2]) "Action" =
      (genre_stream c8net DBState.empty [1, 2]).count "Action" ∧
    List.Sublist [("Action", 1), ("Comedy", 1)]
      (py_sorted_desc (genre_counter c8net DBState.empty [1, 2])) := by
  refine ⟨(c8_genre_tally_stable c8net DBState.empty [1, 2]).1 "Action", ?_⟩
  exact (c8_genre_tally_stable c8net DBState.empty [1, 2]).2.2.2.1
    ("Action", 1) ("Comedy", 1) (by decide) rfl

/-- JSON values, for modelling raw response bodies at the HTTP boundary
(numeric payloads restricted to integers; no claim computes with catalog
floats at this layer). -/
inductive JVal where
  | jnull
  | jbool (b : Bool)
  | jint (n : Int)
  | jstr (s : String)
  | jarr (xs : List JVal)
  | jobj (fields : List (String × JVal))

/-- Python `d.get(k)` on a decoded JSON object: `none` for an absent key. -/
def jlookup (fields : List (String × JVal)) (k : String) : Option JVal :=
  (fields.find? (fun p => p.1 == k)).map (·.2)

/-- Python truthiness of a decoded JSON value. -/
def jtruthy : JVal → Bool
  | .jnull => false
  | .jbool b => b
  | .jint n => n != 0
  | .jstr s => s.length != 0
  | .jarr xs => !xs.isEmpty
  | .jobj fs => !fs.isEmpty

/-- Whether a decoded JSON value is a dict (the only shape whose `.get`
does not raise `AttributeError`). -/
def jIsObj : JVal → Bool
  | .jobj _ => true
  | _ => false

/-- One HTTP exchange as `requests.get` presents it to this code: a
transport error (raising `requests.exceptions.RequestException`, caught by
every client function), or a status code together with a body that either
decodes as JSON or does not (`r.json()` raising `JSONDecodeError`, a
`RequestException` subclass, hence equally caught). -/
inductive HttpResult where
  | netErr
  | resp (status : Nat) (body : Option JVal)

namespace Http

/-- `search_anime` at the HTTP boundary.  The per-item
`db.cache_anime(anime)` write-through succeeds exactly when every iterated
item is a dict; a truthy non-list `data` value is iterated (`TypeError`
for non-iterables, `AttributeError` inside `cache_anime` for string
characters or dict keys); a non-dict top-level body makes `data.get`
raise `AttributeError`.  On every caught failure the function returns
`None`. -/
def search_anime (r : HttpResult) : Except PyErr (Option (List JVal)) :=
  match r with
  | .netErr => .ok none
  | .resp status body =>
      if status == 200 then
        match body with
        | none => .ok none
        | some (.jobj fs) =>
            match jlookup fs "data" with
            | none => .ok (some [])
            | some w =>
                if jtruthy w then
                  match w with
                  | .jarr xs =>
                      if xs.all jIsObj then .ok (some xs)
                      else .error .attributeError
                  | .jint _ => .error .typeError
                  | .jbool _ => .error .typeError
                  | .jstr _ => .error .attributeError
                  | .jobj _ => .error .attributeError
                  | .jnull => .ok (some [])
                else .ok (some [])
        | some _ => .error .attributeError
      else .ok none

/-- `get_anime_by_id` at the HTTP boundary: returns the cached snapshot on
a hit, otherwise one request; a 200 response's `data` value is returned
as-is (after the truthy-guarded cache write, which needs a dict). -/
def get_anime_by_id (cached : Option JVal) (r : HttpResult) :
    Except PyErr (Option JVal) :=
  match cached with
  | some a => .ok (some a)
  | none =>
      match r with
      | .netErr => .ok none
      | .resp status body =>
          if status == 200 then
            match body with
            | none => .ok none
            | some (.jobj fs) =>
                match jlookup fs "data" with
                | none => .ok none
                | some w =>
                    if jtruthy w then
                      if jIsObj w then .ok (some w)
                      else .error .attributeError
                    else .ok (match w with | .jnull => none | _ => some w)
            | some _ => .error .attributeError
          else .ok none

/-- `get_anime_by_season`: like `search_anime` but slices the first 20
results; a truthy non-sliceable `data` raises `TypeError` at `[:20]`. -/
def get_anime_by_season (r : HttpResult) : Except PyErr (Option (List JVal)) :=
  match r with
  | .netErr => .ok none
  | .resp status body =>
      if status == 200 then
        match body with
        | none => .ok none
        | some (.jobj fs) =>
            match jlookup fs "data" with
            | none => .ok (some [])
            | some w =>
                if jtruthy w then
                  match w with
                  | .jarr xs =>
                      if (xs.take 20).all jIsObj then .ok (some (xs.take 20))
                      else .error .attributeError
                  | .jint _ => .error .typeError
                  | .jbool _ => .error .typeError
                  | .jstr _ => .error .attributeError
                  | .jobj _ => .error .typeError
                  | .jnull => .ok (some [])
                else .ok (some [])
        | some _ => .error .attributeError
      else .ok none

/-- `get_top_anime`: returns the pair `(anime_list, last_visible_page)`;
on every caught failure it returns `([], 1)`.  A present but non-dict
`pagination` value makes the second `.get` raise. -/
def get_top_anime (r : HttpResult) : Except PyErr (List JVal × JVal) :=
  match r with
  | .netErr => .ok ([], .jint 1)
  | .resp status body =>
      if status == 200 then
        match body with
        | none => .ok ([], .jint 1)
        | some (.jobj fs) =>
            let page : Except PyErr JVal :=
              match jlookup fs "pagination" with
              | none => .ok (.jint 1)
              | some (.jobj ps) =>
                  .ok ((jlookup ps "last_visible_page").getD (.jint 1))
              | some _ => .error .attributeError
            match page with
            | .error e => .error e
            | .ok pg =>
                match jlookup fs "data" with
                | none => .ok ([], pg)
                | some w =>
                    if jtruthy w then
                      match w with
                      | .jarr xs =>
                          if xs.all jIsObj then .ok (xs, pg)
                          else .error .attributeError
                      | .jint _ => .error .typeError
                      | .jbool _ => .error .typeError
                      | .jstr _ => .error .attributeError
                      | .jobj _ => .error .attributeError
                      | .jnull => .ok ([], pg)
                    else .ok ([], pg)
        | some _ => .error .attributeError
      else .ok ([], .jint 1)

/-- `get_random_anime`: like the network part of `get_anime_by_id`. -/
def get_random_anime (r : HttpResult) : Except PyErr (Option JVal) :=
  match r with
  | .netErr => .ok none
  | .resp status body =>
      if status == 200 then
        match body with
        | none => .ok none
        | some (.jobj fs) =>
            match jlookup fs "data" with
            | none => .ok none
            | some w =>
                if jtruthy w then
                  if jIsObj w then .ok (some w)
                  else .error .attributeError
                else .ok (match w with | .jnull => none | _ => some w)
        | some _ => .error .attributeError
      else .ok none

/-- `get_schedule`: every caught failure yields the empty list. -/
def get_schedule (r : HttpResult) : Except PyErr (List JVal) :=
  match r with
  | .netErr => .ok []
  | .resp status body =>
      if status == 200 then
        match body with
        | none => .ok []
        | some (.jobj fs) =>
            match jlookup fs "data" with
            | none => .ok []
            | some w =>
                if jtruthy w then
                  match w with
                  | .jarr xs =>
                      if xs.all jIsObj then .ok xs
                      else .error .attributeError
                  | .jint _ => .error .typeError
                  | .jbool _ => .error .typeError
                  | .jstr _ => .error .attributeError
                  | .jobj _ => .error .attributeError
                  | .jnull => .ok []
                else .ok []
        | some _ => .error .attributeError
      else .ok []

/-- `get_anime_characters`: returns `data.get("data") or []` *unchanged* —
no iteration and no cache write happen in this function, so a truthy
non-list `data` value is returned as-is rather than raising; every caught
failure (and a falsy `data`) yields the empty list. -/
def get_anime_characters (r : HttpResult) : Except PyErr JVal :=
  match r with
  | .netErr => .ok (.jarr [])
  | .resp status body =>
      if status == 200 then
        match body with
        | none => .ok (.jarr [])
        | some (.jobj fs) =>
            match jlookup fs "data" with
            | none => .ok (.jarr [])
            | some w => if jtruthy w then .ok w else .ok (.jarr [])
        | some _ => .error .attributeError
      else .ok (.jarr [])

/-- `get_character_by_id`: consults the character cache first, then one
request; the truthy-guarded `db.cache_character` write needs a dict. -/
def get_character_by_id (cached : Option JVal) (r : HttpResult) :
    Except PyErr (Option JVal) :=
  match cached with
  | some c => .ok (some c)
  | none =>
      match r with
      | .netErr => .ok none
      | .resp status body =>
          if status == 200 then
            match body with
            | none => .ok none
            | some (.jobj fs) =>
                match jlookup fs "data" with
                | none => .ok none
                | some w =>
                    if jtruthy w then
                      if jIsObj w then .ok (some w)
                      else .error .attributeError
                    else .ok (match w with | .jnull => none | _ => some w)
            | some _ => .error .attributeError
          else .ok none

end Http

/-- C5 amended: for each catalog-client operation and each *caught*
failure mode — transport error, non-success status, or a body that fails
JSON decoding — the operation returns its explicit empty/absent result
(`None`, `[]`, or `([], 1)`) and raises nothing.  (Bodies that decode to
JSON of an unexpected shape are *not* caught; see the counterexample.) -/
theorem c5_client_failure_modes :
    (Http.search_anime .netErr = .ok none ∧
      (∀ (st : Nat) (body : Option JVal), st ≠ 200 →
        Http.search_anime (.resp st body) = .ok none) ∧
      Http.search_anime (.resp 200 none) = .ok none) ∧
    (Http.get_anime_by_id none .netErr = .ok none ∧
      (∀ (st : Nat) (body : Option JVal), st ≠ 200 →
        Http.get_anime_by_id none (.resp st body) = .ok none) ∧
      Http.get_anime_by_id none (.resp 200 none) = .ok none) ∧
    (Http.get_anime_by_season .netErr = .ok none ∧
      (∀ (st : Nat) (body : Option JVal), st ≠ 200 →
        Http.get_anime_by_season (.resp st body) = .ok none) ∧
      Http.get_anime_by_season (.resp 200 none) = .ok none) ∧
    (Http.get_top_anime .netErr = .ok ([], .jint 1) ∧
      (∀ (st : Nat) (body : Option JVal), st ≠ 200 →
        Http.get_top_anime (.resp st body) = .ok ([], .jint 1)) ∧
      Http.get_top_anime (.resp 200 none) = .ok ([], .jint 1)) ∧
    (Http.get_random_anime .netErr = .ok none ∧
      (∀ (st : Nat) (body : Option JVal), st ≠ 200 →
        Http.get_random_anime (.resp st body) = .ok none) ∧
      Http.get_random_anime (.resp 200 none) = .ok none) ∧
    (Http.get_schedule .netErr = .ok [] ∧
      (∀ (st : Nat) (body : Option JVal), st ≠ 200 →
        Http.get_schedule (.resp st body) = .ok []) ∧
      Http.get_schedule (.resp 200 none) = .ok []) ∧
    (Http.get_anime_characters .netErr = .ok (.jarr []) ∧
      (∀ (st : Nat) (body : Option JVal), st ≠ 200 →
        Http.get_anime_characters (.resp st body) = .ok (.jarr [])) ∧
      Http.get_anime_characters (.resp 200 none) = .ok (.jarr [])) ∧
    (Http.get_character_by_id none .netErr = .ok none ∧
      (∀ (st : Nat) (body : Option JVal), st ≠ 200 →
        Http.get_character_by_id none (.resp st body) = .ok none) ∧
      Http.get_character_by_id none (.resp 200 none) = .ok none) := by
  refine ⟨⟨rfl, ?_, rfl⟩, ⟨rfl, ?_, rfl⟩, ⟨rfl, ?_, rfl⟩, ⟨rfl, ?_, rfl⟩,
    ⟨rfl, ?_, rfl⟩, ⟨rfl, ?_, rfl⟩, ⟨rfl, ?_, rfl⟩, ⟨rfl, ?_, rfl⟩⟩ <;>
  · intro st body h
    have hb : (st == 200) = false := beq_eq_false_iff_ne.mpr h
    simp [Http.search_anime, Http.get_anime_by_id, Http.get_anime_by_season,
      Http.get_top_anime, Http.get_random_anime, Http.get_schedule,
      Http.get_anime_characters, Http.get_character_by_id, hb]

/-- C5 counterexample: a 200 response whose body decodes to a top-level
JSON array (a malformed body for this endpoint) makes `search_anime`
evaluate `data.get("data")` on a list and raise `AttributeError` past its
boundary — it does not return an empty/absent result. -/
theorem c5_malformed_body_raises :
    Http.search_anime (.resp 200 (some (.jarr []))) = .error .attributeError ∧
    ∀ v, Http.search_anime (.resp 200 (some (.jarr []))) ≠ .ok v := by
  refine ⟨rfl, ?_⟩
  intro v h
  rw [show Http.search_anime (.resp 200 (some (.jarr []))) =
      .error .attributeError from rfl] at h
  exact Except.noConfusion h

/-- C5 witness: the amended theorem's non-success clauses discharged at
concrete statuses for every operation. -/
theorem c5_client_failure_modes_witness :
    Http.search_anime (.resp 500 none) = .ok none ∧
    Http.get_anime_by_id none (.resp 404 (some (.jobj []))) = .ok none ∧
    Http.get_anime_by_season (.resp 429 none) = .ok none ∧
    Http.get_top_anime (.resp 500 none) = .ok ([], .jint 1) ∧
    Http.get_random_anime (.resp 503 none) = .ok none ∧
    Http.get_schedule (.resp 500 none) = .ok [] ∧
    Http.get_anime_characters (.resp 404 none) = .ok (.jarr []) ∧
    Http.get_character_by_id none (.resp 500 none) = .ok none := by
  have h := c5_client_failure_modes
  exact ⟨h.1.2.1 500 none (by decide),
    h.2.1.2.1 404 (some (.jobj [])) (by decide),
    h.2.2.1.2.1 429 none (by decide),
    h.2.2.2.1.2.1 500 none (by decide),
    h.2.2.2.2.1.2.1 503 none (by decide),
    h.2.2.2.2.2.1.2.1 500 none (by decide),
    h.2.2.2.2.2.2.1.2.1 404 none (by decide),
    h.2.2.2.2.2.2.2.2.1 500 none (by decide)⟩

/-- Character list of a string literal (callback data and keys are
modelled as `List Char` so that every router step reduces in the
kernel). -/
def chars (s : String) : List Char := s.toList

/-- `data.startswith(pat)`. -/
def pyStarts : List Char → List Char → Bool
  | _, [] => true
  | [], _ :: _ => false
  | c :: cs, p :: ps => c == p && pyStarts cs ps

/-- Accumulator loop of `str.split(sep)`. -/
def pySplitAux (sep : Char) : List Char → List Char → List (List Char)
  | cur, [] => [cur.reverse]
  | cur, c :: cs =>
      if c == sep then cur.reverse :: pySplitAux sep [] cs
      else pySplitAux sep (c :: cur) cs

/-- `str.split(sep)` (single-character separator, empty pieces kept). -/
def pySplit (sep : Char) (l : List Char) : List (List Char) :=
  pySplitAux sep [] l

/-- `sep.join(parts)`. -/
def pyJoin (sep : Char) : List (List Char) → List Char
  | [] => []
  | [x] => x
  | x :: xs => x ++ sep :: pyJoin sep xs

/-- Python sequence subscripting `l[i]`: negative indices wrap from the
end, out-of-range indices raise `IndexError`. -/
def pyIdx {α : Type} (l : List α) (i : Int) : Except PyErr α :=
  let j : Int := if i < 0 then (l.length : Int) + i else i
  if 0 ≤ j then
    match l.get? j.toNat with
    | some x => .ok x
    | none => .error .indexError
  else .error .indexError

/-- `range(a, b)` over integers. -/
def intRange (a b : Int) : List Int :=
  (List.range (b - a).toNat).map (fun k => a + (k : Int))

/-- Map with Python exception propagation (first failure wins). -/
def mapExcept {α β : Type} (f : α → Except PyErr β) : List α → Except PyErr (List β)
  | [] => .ok []
  | x :: xs =>
      match f x with
      | .error e => .error e
      | .ok y =>
          match mapExcept f xs with
          | .error e => .error e
          | .ok ys => .ok (y :: ys)

/-- Decimal rendering of an integer, as `f"{n}"`. -/
def intToChars (n : Int) : List Char := (toString n).toList

/-- `decode_html_entities` (`html.unescape` with a falsy-input guard).
Entity decoding only affects button-label cosmetics and no claim depends
on it, so the unescaping itself is modelled as the identity. -/
def decode_html_entities (s : List Char) : List Char := s

/-- One inline keyboard button: its label and its callback data. -/
structure Button where
  text : List Char
  callback : List Char
  deriving DecidableEq

/-- An inline keyboard: rows of buttons. -/
abbrev Keyboard := List (List Button)

/-- A character search result, with the fields the router touches. -/
structure CharRec where
  mal_id : Int
  name : Option String
  deriving DecidableEq

/-- One `get_anime_characters` entry as the router touches it. -/
structure CharEntry where
  char_id : Option Int
  char_name : Option String
  role : String
  deriving DecidableEq

/-- Values stored in `context.user_data` by the search, season, character
and character-list commands. -/
inductive UDVal where
  | searchResults (items : List Anime)
  | characterResults (items : List CharRec)
  | charsOf (items : List CharEntry)
  deriving DecidableEq

/-- `context.user_data`: per-session key/value store. -/
abbrev UserData := List (List Char × UDVal)

/-- An item handed to `create_search_pagination_keyboard`: an anime dict
or a character dict. -/
inductive SearchItem where
  | anime (a : Anime)
  | character (c : CharRec)
  deriving DecidableEq

/-- Label and callback data for one result row of
`create_search_pagination_keyboard`.  A dict of the other kind lacks the
looked-up key, so `.get` yields the default label. -/
def searchItemButton (search_type : List Char) (item : SearchItem) : Button :=
  let fields : List Char × Int :=
    if search_type == chars "anime" then
      match item with
      | .anime a => (chars (a.title.getD "Sans titre"), a.mal_id)
      | .character c => (chars "Sans titre", c.mal_id)
    else
      match item with
      | .anime a => (chars "Sans nom", a.mal_id)
      | .character c => (chars (c.name.getD "Sans nom"), c.mal_id)
  let cbp := if search_type == chars "anime" then chars "anime" else chars "character"
  let t := decode_html_entities fields.1
  let t2 := if t.length > 35 then t.take 32 ++ chars "..." else t
  ⟨t2, cbp ++ '_' :: intToChars fields.2⟩

/-- `create_search_pagination_keyboard` (src/bot.py:1321-1349): five
result buttons per page plus a navigation row when there is more than one
page.  `current_page` is the `int` parsed from the identifier, so Python's
negative-index semantics apply to the slice accesses. -/
def create_search_pagination_keyboard (results : List SearchItem)
    (current_page : Int) (query : List Char) (search_type : List Char) :
    Except PyErr Keyboard :=
  let items_per_page : Int := 5
  let total_pages : Int := max 1 (((results.length + 4) / 5 : Nat) : Int)
  let start_idx := current_page * items_per_page
  let end_idx := min (start_idx + items_per_page) (results.length : Int)
  match mapExcept (fun i =>
      match pyIdx results i with
      | .error e => .error e
      | .ok item => .ok [searchItemButton search_type item])
      (intRange start_idx end_idx) with
  | .error e => .error e
  | .ok rows =>
      if total_pages > 1 then
        let nav :=
          (if current_page > 0 then
            [Button.mk (chars "⬅️")
              (chars "page_" ++ search_type ++ '_' :: query ++
                '_' :: intToChars (current_page - 1))]
          else []) ++
          [Button.mk (intToChars (current_page + 1) ++ '/' :: intToChars total_pages)
            (chars "noop")] ++
          (if current_page < total_pages - 1 then
            [Button.mk (chars "➡️")
              (chars "page_" ++ search_type ++ '_' :: query ++
                '_' :: intToChars (current_page + 1))]
          else [])
        .ok (rows ++ [nav])
      else .ok rows

/-- What one `button_handler` invocation renders, besides the Entity
Store effect.  Branches that no claim depends on are recorded as a tagged
dispatch (`view` / `editShown` / `replyShown`) rather than fully rendered
text; the `page_` and `chars_page_` branches are modelled exactly. -/
inductive Outcome where
  | silent
  | editMarkup (kb : Keyboard)
  | editShown (tag : List Char)
  | replyShown (tag : List Char)
  | toast (msg : List Char)
  | view (tag : List Char) (arg : List Char)
  deriving DecidableEq

/-- The achievements registry as `button_handler` re-evaluates it after a
state-mutating action: (type, name, condition-over-store). -/
abbrev AchRegistry := List (String × String × (Int → DBState → Bool))

/-- `get_anime_recommendations` (src/bot.py:820-827): deliberately returns
the empty list ("On renvoie une liste vide pour éviter KeyError"). -/
def get_anime_recommendations (_ : List Named) (_ : Int) (_ : Nat) : List Anime :=
  []

/-- The `page_` branch of `button_handler` (src/bot.py:1753-1772).  When
the stored result list is absent or empty the branch falls through with no
response at all; otherwise it rebuilds the keyboard for the requested page
and edits the message markup in place. -/
def page_branch (ud : UserData) (d : List Char) : Except PyErr Outcome :=
  let parts := pySplit '_' d
  if parts.length ≥ 4 then
    let search_type := (parts.get? 1).getD []
    let search_query := pyJoin '_' ((parts.drop 2).dropLast)
    match pyIntOfChars ((parts.getLast?).getD []) with
    | none => .error .valueError
    | some page =>
        if search_type == chars "anime" then
          let season_key := chars "season_results_" ++ search_query
          let stored_key :=
            if (ud.find? (fun e => e.1 == season_key)).isSome then season_key
            else chars "search_results_" ++ search_query
          let results :=
            match (ud.find? (fun e => e.1 == stored_key)).map (·.2) with
            | some (.searchResults items) => items
            | _ => []
          if results.isEmpty then .ok .silent
          else
            match create_search_pagination_keyboard (results.map .anime) page
                search_query (chars "anime") with
            | .error e => .error e
            | .ok kb => .ok (.editMarkup kb)
        else if search_type == chars "character" then
          let stored_key := chars "character_results_" ++ search_query
          let results :=
            match (ud.find? (fun e => e.1 == stored_key)).map (·.2) with
            | some (.characterResults items) => items
            | _ => []
          if results.isEmpty then .ok .silent
          else
            match create_search_pagination_keyboard (results.map .character) page
                search_query (chars "character") with
            | .error e => .error e
            | .ok kb => .ok (.editMarkup kb)
        else .ok .silent
  else .ok .silent

/-- The `chars_page_` branch (src/bot.py:1923-1936).  Note the indexing
mismatch: `create_characters_list_keyboard` emits
`chars_page_{anime_id}_{page}` — four `_`-separated tokens — while this
branch reads `parts[3]` as the anime id and `parts[4]` as the page, so
every identifier the bot itself produces raises `IndexError` at
`parts[4]`.  Only hand-crafted five-token identifiers reach the
absent-entry toast. -/
def chars_page_branch (ud : UserData) (d : List Char) : Except PyErr Outcome :=
  let parts := pySplit '_' d
  match pyIdx parts 3 with
  | .error e => .error e
  | .ok anime_id =>
      match pyIdx parts 4 with
      | .error e => .error e
      | .ok pstr =>
          match pyIntOfChars pstr with
          | none => .error .valueError
          | some _page =>
              let results :=
                match (ud.find? (fun e =>
                    e.1 == chars "anime_chars_" ++ anime_id)).map (·.2) with
                | some (.charsOf items) => items
                | _ => []
              if results.isEmpty then
                .ok (.toast (chars "❌ Données de personnages non disponibles."))
              else .ok (.editShown (chars "chars_page"))

/-- The first `character_` branch (src/bot.py:1780-1788): scan the
session's `character_results_*` lists for the id; `int(character_id)` is
evaluated lazily inside the generator, hence only once some stored list is
non-empty. -/
def character_branch (idStr : List Char) : UserData → Except PyErr Outcome
  | [] => .ok (.replyShown (chars "character_load_error"))
  | (k, v) :: rest =>
      if pyStarts k (chars "character_results_") then
        match v with
        | .characterResults items =>
            if items.isEmpty then character_branch idStr rest
            else
              match pyIntOfChars idStr with
              | none => .error .valueError
              | some n =>
                  match items.find? (fun c => c.mal_id == n) with
                  | some _ => .ok (.view (chars "character") idStr)
                  | none => character_branch idStr rest
        | _ => character_branch idStr rest
      else character_branch idStr rest

/-- The progress-adjustment path of the `progress_` branch
(src/bot.py:2049-2082), after `anime_id` has been parsed.  Mirrors the
source: resolve the anime (raising `AttributeError` when it cannot be
loaded, because of `anime.get('episodes')` on `None`), compute the new
progress (`min`-clamped increment, `max`-clamped decrement, or an
*unclamped* `int(action)` jump), write it with the current status, then —
when a truthy episode count has been reached — write status `completed`
with `progress = episodes`, and finally re-run the achievements check. -/
def progress_adjust (registry : AchRegistry) (net : Int → Option Anime)
    (s : DBState) (user_id anime_id : Int) (action : List Char) :
    Except PyErr (DBState × Outcome) :=
  let watch_status := get_watch_status s user_id anime_id
  let current_status := match watch_status with | some w => w.status | none => .watching
  let current_progress := match watch_status with | some w => w.progress | none => 0
  let r := get_anime_by_id net s anime_id
  match r.1 with
  | none => .error .attributeError
  | some anime =>
      let s1 := r.2.1
      let epVal : Option Int :=
        match anime.episodes with
        | some e => if e ≠ 0 then some e else none
        | none => none
      let newP : Except PyErr Int :=
        if action == chars "up" then
          .ok (min (current_progress + 1)
            (match epVal with | some e => e | none => current_progress + 1))
        else if action == chars "down" then
          .ok (max (current_progress - 1) 0)
        else
          match pyIntOfChars action with
          | some v => .ok v
          | none => .error .valueError
      match newP with
      | .error e => .error e
      | .ok new_progress =>
          let s2 := update_watchlist s1 user_id anime_id current_status none
            (some new_progress)
          let s3 :=
            match epVal with
            | some e =>
                if new_progress ≥ e then
                  update_watchlist s2 user_id anime_id .completed none (some e)
                else s2
            | none => s2
          let achs := check_achievements registry s3 user_id s3.achievements
          .ok ({ s3 with achievements := achs.2 },
            .view (chars "progress_updated") (intToChars new_progress))

/-- The fetch-then-display shape shared by the `anime_`, `synopsis_`,
`details_`, `studio_`, `trailer_` and `streaming_` branches: the id token
is forwarded as a string; SQLite's INTEGER column affinity makes numeric
text hit the cache, while non-numeric text matches nothing and the
request for it fails, giving the branch's error reply. -/
def fetch_view_branch (net : Int → Option Anime) (s : DBState)
    (idStr : List Char) (tag errTag : List Char) : DBState × Outcome :=
  match pyIntOfChars idStr with
  | some n =>
      let r := get_anime_by_id net s n
      match r.1 with
      | some _ => (r.2.1, .view tag idStr)
      | none => (r.2.1, .replyShown errTag)
  | none => (s, .replyShown errTag)

/-- The `similar_` branch (src/bot.py:1840-1863): `int()` parses the id
immediately; `get_anime_recommendations` always returns the empty list,
so the branch can only ever reply "no recommendations" or the error
message. -/
def similar_branch (net : Int → Option Anime) (s : DBState) (idStr : List Char) :
    Except PyErr (DBState × Outcome) :=
  match pyIntOfChars idStr with
  | none => .error .valueError
  | some n =>
      let r := get_anime_by_id net s n
      match r.1 with
      | some a =>
          if !a.genres.isEmpty then
            let recs := get_anime_recommendations a.genres n 5
            if !recs.isEmpty then .ok (r.2.1, .view (chars "similar") idStr)
            else .ok (r.2.1, .replyShown (chars "no_recommendations"))
          else .ok (r.2.1, .replyShown (chars "recommendations_error"))
      | none => .ok (r.2.1, .replyShown (chars "recommendations_error"))

/-- The `fav_` branch (src/bot.py:1975-1993): toggle the favourite, re-run
the achievements check after an add, then refresh the entity view. -/
def fav_branch (registry : AchRegistry) (net : Int → Option Anime)
    (s : DBState) (user_id : Int) (idStr : List Char) :
    Except PyErr (DBState × Outcome) :=
  match pyIntOfChars idStr with
  | none => .error .valueError
  | some anime_id =>
      if is_favorite s user_id anime_id then
        let s1 := remove_from_favorites s user_id anime_id
        let r := get_anime_by_id net s1 anime_id
        .ok (r.2.1, .view (chars "fav_removed") idStr)
      else
        let s1 := add_to_favorites s user_id anime_id
        let achs := check_achievements registry s1 user_id s1.achievements
        let s2 := { s1 with achievements := achs.2 }
        let r := get_anime_by_id net s2 anime_id
        .ok (r.2.1, .view (chars "fav_added") idStr)

/-- The `watch_` branch (src/bot.py:2004-2032): `int(parts[2])` raises
`IndexError`/`ValueError` on short or non-numeric identifiers,
`status_map[parts[1]]` raises `KeyError` on an unknown sub-status; the
status-only `update_watchlist` call then rewrites the row (resetting score
and progress, cf. the C1 analysis) and the achievements check re-runs. -/
def watch_branch (registry : AchRegistry) (net : Int → Option Anime)
    (s : DBState) (user_id : Int) (parts : List (List Char)) :
    Except PyErr (DBState × Outcome) :=
  match pyIdx parts 2 with
  | .error e => .error e
  | .ok idStr =>
      match pyIntOfChars idStr with
      | none => .error .valueError
      | some anime_id =>
          let statusTok := (parts.get? 1).getD []
          let mapped : Option WStatus :=
            if statusTok == chars "plan" then some .plan_to_watch
            else if statusTok == chars "watch" then some .watching
            else if statusTok == chars "comp" then some .completed
            else if statusTok == chars "drop" then some .dropped
            else none
          match mapped with
          | none => .error .keyError
          | some st =>
              let s1 := update_watchlist s user_id anime_id st
              let achs := check_achievements registry s1 user_id s1.achievements
              let s2 := { s1 with achievements := achs.2 }
              let r := get_anime_by_id net s2 anime_id
              .ok (r.2.1, .view (chars "watch_set") statusTok)

/-- Whether an identifier matches any branch of `button_handler`'s
`elif` chain (in source order; disjunction order is immaterial). -/
def knownAction (d : List Char) : Bool :=
  pyStarts d (chars "page_") || pyStarts d (chars "anime_") ||
  pyStarts d (chars "character_") || pyStarts d (chars "synopsis_") ||
  pyStarts d (chars "details_") || pyStarts d (chars "studio_") ||
  pyStarts d (chars "trailer_") || pyStarts d (chars "similar_") ||
  pyStarts d (chars "streaming_") || pyStarts d (chars "top_") ||
  pyStarts d (chars "schedule_") || pyStarts d (chars "anime_chars_") ||
  pyStarts d (chars "chars_page_") || pyStarts d (chars "fav_") ||
  pyStarts d (chars "lists_") || pyStarts d (chars "watch_") ||
  pyStarts d (chars "progress_") || d == chars "profile_main" ||
  d == chars "profile_favorites" || d == chars "profile_watchlist" ||
  pyStarts d (chars "watchlist_") || d == chars "profile_stats" ||
  d == chars "profile_achievements" || d == chars "profile_recommendations" ||
  d == chars "profile_back" || d == chars "noop"

/-- `button_handler` (src/bot.py:1745-2220): `add_user` runs first, then
the identifier is matched against the `elif` chain in source order.  The
`anime_chars_` branch is unreachable (shadowed by the `anime_` prefix
above it), as is the second `character_` branch; both are kept in place.
Branches whose bodies no claim depends on record a tagged outcome after
performing the argument parsing (and the Entity Store effects) the source
performs. -/
def button_handler (registry : AchRegistry) (oracle : NetOracle)
    (enum : List Int → List Int) (ud : UserData) (s0 : DBState)
    (user_id : Int) (d : List Char) : Except PyErr (DBState × Outcome) :=
  let s := add_user s0 user_id
  let parts := pySplit '_' d
  let net := oracle.byId
  if pyStarts d (chars "page_") then
    (page_branch ud d).map (fun o => (s, o))
  else if pyStarts d (chars "anime_") then
    .ok (fetch_view_branch net s ((parts.get? 1).getD []) (chars "anime")
      (chars "anime_load_error"))
  else if pyStarts d (chars "character_") then
    (character_branch ((parts.get? 1).getD []) ud).map (fun o => (s, o))
  else if pyStarts d (chars "synopsis_") then
    .ok (fetch_view_branch net s ((parts.get? 1).getD []) (chars "synopsis")
      (chars "synopsis_error"))
  else if pyStarts d (chars "details_") then
    .ok (fetch_view_branch net s ((parts.get? 1).getD []) (chars "details")
      (chars "details_error"))
  else if pyStarts d (chars "studio_") then
    .ok (fetch_view_branch net s ((parts.get? 1).getD []) (chars "studio")
      (chars "studio_error"))
  else if pyStarts d (chars "trailer_") then
    .ok (fetch_view_branch net s ((parts.get? 1).getD []) (chars "trailer")
      (chars "trailer_error"))
  else if pyStarts d (chars "similar_") then
    similar_branch net s ((parts.get? 1).getD [])
  else if pyStarts d (chars "streaming_") then
    .ok (fetch_view_branch net s ((parts.get? 1).getD []) (chars "streaming")
      (chars "streaming_error"))
  else if pyStarts d (chars "top_") then
    (if parts.length ≥ 3 then
      match pyIntOfChars ((parts.get? 2).getD []) with
      | none => .error .valueError
      | some page =>
          let res := oracle.topAnime (String.mk ((parts.get? 1).getD [])) page 10
          if !res.1.isEmpty then .ok (s, .editShown (chars "top"))
          else .ok (s, .toast (chars "❌ Impossible de charger les top animes."))
    else .ok (s, .silent))
  else if pyStarts d (chars "schedule_") then
    .ok (s, .editShown (chars "schedule"))
  else if pyStarts d (chars "anime_chars_") then
    .ok (s, .view (chars "anime_chars") ((parts.get? 2).getD []))
  else if pyStarts d (chars "chars_page_") then
    (chars_page_branch ud d).map (fun o => (s, o))
  else if pyStarts d (chars "character_") then
    .ok (s, .view (chars "character_detail") ((parts.get? 1).getD []))
  else if pyStarts d (chars "fav_") then
    fav_branch registry net s user_id ((parts.get? 1).getD [])
  else if pyStarts d (chars "lists_") then
    (match pyIntOfChars ((parts.get? 1).getD []) with
    | none => .error .valueError
    | some _ => .ok (s, .replyShown (chars "lists_keyboard")))
  else if pyStarts d (chars "watch_") then
    watch_branch registry net s user_id parts
  else if pyStarts d (chars "progress_") then
    (match pyIntOfChars ((parts.get? 1).getD []) with
    | none => .error .valueError
    | some anime_id =>
        if parts.length == 2 then
          let r := get_anime_by_id net s anime_id
          match r.1 with
          | none => .error .attributeError
          | some _ => .ok (r.2.1, .replyShown (chars "progress_keyboard"))
        else
          progress_adjust registry net s user_id anime_id ((parts.get? 2).getD []))
  else if d == chars "profile_main" then .ok (s, .editShown (chars "profile_main"))
  else if d == chars "profile_favorites" then
    .ok (s, .editShown (chars "profile_favorites"))
  else if d == chars "profile_watchlist" then
    .ok (s, .editShown (chars "profile_watchlist"))
  else if pyStarts d (chars "watchlist_") then
    (let tok := (parts.get? 1).getD []
    if tok == chars "plan" || tok == chars "watch" || tok == chars "comp" ||
        tok == chars "drop" then
      .ok (s, .editShown (chars "watchlist"))
    else .error .keyError)
  else if d == chars "profile_stats" then .ok (s, .editShown (chars "profile_stats"))
  else if d == chars "profile_achievements" then
    .ok (s, .editShown (chars "profile_achievements"))
  else if d == chars "profile_recommendations" then
    (match get_personal_recommendations oracle enum s user_id 5 with
    | .error e => .error e
    | .ok _ => .ok (s, .editShown (chars "profile_recommendations")))
  else if d == chars "profile_back" then .ok (s, .editShown (chars "profile_back"))
  else if d == chars "noop" then .ok (s, .silent)
  else .ok (s, .silent)

/-- Reading back the row just written by a progress update. -/
theorem get_watch_status_update_progress (s : DBState) (u a : Int)
    (st : WStatus) (p : Int) :
    get_watch_status (update_watchlist s u a st none (some p)) u a =
      some ⟨st, none, p⟩ := by
  unfold update_watchlist get_watch_status
  simp [List.find?_cons]

/-- Changing only the achievements table does not affect watch rows. -/
theorem get_watch_status_set_achievements (s : DBState) (x : AchList)
    (u a : Int) :
    get_watch_status { s with achievements := x } u a =
      get_watch_status s u a := rfl

/-- Entity with a known 12-episode count, for the C3 inputs. -/
def c3Anime : Anime := { testAnime 100 [] with episodes := some 12 }

/-- No network responses (the C3 entity is served from the cache). -/
def c3net : Int → Option Anime := fun _ => none

/-- Store with `c3Anime` cached and a watch row (watching, NULL, 5). -/
def c3state : DBState :=
  update_watchlist (cache_anime DBState.empty c3Anime) 1 100 .watching none
    (some 5)

/-- C3 amended: with an existing watch row and the entity resolvable from
the cache, (i) a progress increment is clamped by `min` to a known
(Python-truthy) episode count and reaching it flips the status to
`completed` in the same handler run — in particular a further increment at
`progress = episodes` leaves the stored pair at `(completed, episodes)`;
(ii) a decrement is clamped by `max` to 0; (iii) a jump to a non-negative
value lands in `[0, episodes]`, with the overshoot rewritten to
`(completed, episodes)`; (iv) with an unknown (absent or zero) episode
count, increments and non-negative jumps stay ≥ 0 and unbounded above.
The amendment restricts the claim's clamping to increment, decrement and
non-negative jumps — the only actions the bot's keyboards emit; a
negative jump is written unclamped (see the counterexample). -/
theorem c3_progress_clamp (registry : AchRegistry) (net : Int → Option Anime)
    (s : DBState) (u a : Int) (st : WStatus) (sc : Option Int) (cur : Int)
    (an : Anime)
    (h1 : get_watch_status s u a = some ⟨st, sc, cur⟩)
    (h2 : get_cached_anime s a = some an)
    (hcur : 0 ≤ cur) :
    (∀ n : Int, an.episodes = some n → n ≠ 0 → cur ≤ n →
      (progress_adjust registry net s u a (chars "up")).map
          (fun o => get_watch_status o.1 u a) =
        .ok (some ⟨if n ≤ cur + 1 then .completed else st, none,
          min (cur + 1) n⟩) ∧
      0 ≤ min (cur + 1) n ∧ min (cur + 1) n ≤ n) ∧
    (∀ n : Int, an.episodes = some n → n ≠ 0 → cur ≤ n →
      (progress_adjust registry net s u a (chars "down")).map
          (fun o => get_watch_status o.1 u a) =
        .ok (some ⟨st, none, max (cur - 1) 0⟩) ∧
      0 ≤ max (cur - 1) 0 ∧ max (cur - 1) 0 ≤ n) ∧
    (∀ (n v : Int) (act : List Char), an.episodes = some n → 0 < n →
      pyIntOfChars act = some v → 0 ≤ v →
      (progress_adjust registry net s u a act).map
          (fun o => get_watch_status o.1 u a) =
        .ok (some ⟨if n ≤ v then .completed else st, none,
          if n ≤ v then n else v⟩) ∧
      (0:Int) ≤ (if n ≤ v then n else v) ∧ (if n ≤ v then n else v) ≤ n) ∧
    (an.episodes = some 0 ∨ an.episodes = none →
      ((progress_adjust registry net s u a (chars "up")).map
          (fun o => get_watch_status o.1 u a) =
        .ok (some ⟨st, none, cur + 1⟩) ∧ 0 ≤ cur + 1) ∧
      ((progress_adjust registry net s u a (chars "down")).map
          (fun o => get_watch_status o.1 u a) =
        .ok (some ⟨st, none, max (cur - 1) 0⟩) ∧ (0:Int) ≤ max (cur - 1) 0) ∧
      (∀ (v : Int) (act : List Char), pyIntOfChars act = some v → 0 ≤ v →
        (progress_adjust registry net s u a act).map
            (fun o => get_watch_status o.1 u a) =
          .ok (some ⟨st, none, v⟩))) := by
  have hby : get_anime_by_id net s a = (some an, s, 0) := by
    unfold get_anime_by_id
    rw [h2]
  refine ⟨?_, ?_, ?_, ?_⟩
  · -- increment with a truthy episode count
    intro n hn hn0 hcn
    simp only [progress_adjust, hby, h1]
    rw [hn]
    simp only [if_pos hn0, show ((chars "up" == chars "up") = true) from rfl,
      if_true, Except.map]
    by_cases hc : n ≤ cur + 1
    · rw [min_eq_right (by omega), if_pos (le_refl n),
        get_watch_status_set_achievements, get_watch_status_update_progress]
      refine ⟨by rw [if_pos hc], by omega, by omega⟩
    · rw [min_eq_left (by omega), if_neg (by omega),
        get_watch_status_set_achievements, get_watch_status_update_progress]
      refine ⟨by rw [if_neg hc], by omega, by omega⟩
  · -- decrement with a truthy episode count
    intro n hn hn0 hcn
    simp only [progress_adjust, hby, h1]
    rw [hn]
    simp only [if_pos hn0,
      show ((chars "down" == chars "up") = false) from rfl,
      show ((chars "down" == chars "down") = true) from rfl,
      Bool.false_eq_true, if_false, if_true, Except.map]
    rw [if_neg (show ¬ max (cur - 1) 0 ≥ n from by omega),
      get_watch_status_set_achievements, get_watch_status_update_progress]
    exact ⟨rfl, by omega, by omega⟩
  · -- non-negative jump with a truthy episode count
    intro n v act hn hn0 hparse hv
    have hup : (act == chars "up") = false := by
      cases hau : act == chars "up"
      · rfl
      · have : act = chars "up" := by simpa using hau
        rw [this] at hparse
        simp [show pyIntOfChars (chars "up") = none from rfl] at hparse
    have hdown : (act == chars "down") = false := by
      cases had : act == chars "down"
      · rfl
      · have : act = chars "down" := by simpa using had
        rw [this] at hparse
        simp [show pyIntOfChars (chars "down") = none from rfl] at hparse
    simp only [progress_adjust, hby, h1]
    rw [hn]
    simp only [if_pos (show n ≠ 0 from by omega), hup, hdown, hparse,
      Bool.false_eq_true, if_false, Except.map]
    by_cases hc : n ≤ v
    · rw [if_pos (show v ≥ n from by omega),
        get_watch_status_set_achievements, get_watch_status_update_progress]
      refine ⟨by rw [if_pos hc, if_pos hc], by omega, by omega⟩
    · rw [if_neg (show ¬ v ≥ n from by omega),
        get_watch_status_set_achievements, get_watch_status_update_progress]
      refine ⟨by rw [if_neg hc, if_neg hc], by omega, by omega⟩
  · -- falsy (absent or zero) episode count
    intro hfalsy
    have hep : (match an.episodes with
        | some e => if e ≠ 0 then some e else none
        | none => none) = (none : Option Int) := by
      rcases hfalsy with h0 | h0 <;> simp [h0]
    refine ⟨?_, ?_, ?_⟩
    · simp only [progress_adjust, hby, h1, hep,
        show ((chars "up" == chars "up") = true) from rfl, if_true, Except.map]
      rw [get_watch_status_set_achievements, get_watch_status_update_progress]
      exact ⟨by rw [min_self], by omega⟩
    · simp only [progress_adjust, hby, h1, hep,
        show ((chars "down" == chars "up") = false) from rfl,
        show ((chars "down" == chars "down") = true) from rfl,
        Bool.false_eq_true, if_false, if_true, Except.map]
      rw [get_watch_status_set_achievements, get_watch_status_update_progress]
      exact ⟨rfl, by omega⟩
    · intro v act hparse hv
      have hup : (act == chars "up") = false := by
        cases hau : act == chars "up"
        · rfl
        · have : act = chars "up" := by simpa using hau
          rw [this] at hparse
          simp [show pyIntOfChars (chars "up") = none from rfl] at hparse
      have hdown : (act == chars "down") = false := by
        cases had : act == chars "down"
        · rfl
        · have : act = chars "down" := by simpa using had
          rw [this] at hparse
          simp [show pyIntOfChars (chars "down") = none from rfl] at hparse
      simp only [progress_adjust, hby, h1, hep, hup, hdown, hparse,
        Bool.false_eq_true, if_false, Except.map]
      rw [get_watch_status_set_achievements, get_watch_status_update_progress]

/-- C3 counterexample: at an existing row (watching, NULL, 5) for an
entity with a *known* episode count of 12, the jump action `-3` (callback
`progress_100_-3`) is parsed by `int()` and written unclamped: the stored
progress becomes −3, outside `[0, 12]`, refuting the claimed clamping for
jump actions. -/
theorem c3_negative_jump_unclamped :
    (progress_adjust [] c3net c3state 1 100 (chars "-3")).map
        (fun o => get_watch_status o.1 1 100) =
      .ok (some ⟨.watching, none, -3⟩) ∧ ((-3 : Int) < 0) := by
  exact ⟨rfl, by decide⟩

/-- C3 witness: the amended theorem applied at the concrete store
(row (watching, NULL, 5), cached episode count 12): an increment stores
`min (5+1) 12` with the completion test `12 ≤ 5+1` deciding the status. -/
theorem c3_progress_clamp_witness :
    (progress_adjust [] c3net c3state 1 100 (chars "up")).map
        (fun o => get_watch_status o.1 1 100) =
      .ok (some ⟨if (12:Int) ≤ 5 + 1 then .completed else .watching, none,
        min ((5:Int) + 1) 12⟩) ∧
    (0:Int) ≤ min ((5:Int) + 1) 12 ∧ min ((5:Int) + 1) 12 ≤ 12 :=
  (c3_progress_clamp [] c3net c3state 1 100 .watching none 5
      (reconstruct_anime 100 (project_anime c3Anime)) rfl rfl (by decide)).1
    12 rfl (by decide) (by decide)

/-- Inert network oracle for concrete router runs. -/
def oracle0 : NetOracle := ⟨fun _ => none, fun _ _ => [], fun _ _ _ => ([], 1)⟩

/-- C7 (code_bug evaluation): pagination identifiers never reach an
"unavailable" fallback on the search route, and the characters route
crashes on its own identifiers.  (i) `page_anime_q_5` against a stored
3-item result list silently edits the markup to a keyboard with no rows —
an empty page.  (ii) `page_anime_q_0` against an absent session entry
produces no response at all.  (iii) `chars_page_42_1`, the exact
four-token shape `create_characters_list_keyboard` emits, raises
`IndexError` at `parts[4]`.  (iv) Only a hand-crafted five-token
identifier with an absent entry reaches the "unavailable" toast. -/
theorem c7_pagination_no_fallback_eval :
    button_handler [] oracle0 id
        [(chars "search_results_q",
          .searchResults [testAnime 1 [], testAnime 2 [], testAnime 3 []])]
        DBState.empty 7 (chars "page_anime_q_5") =
      .ok (add_user DBState.empty 7, .editMarkup []) ∧
    button_handler [] oracle0 id [] DBState.empty 7 (chars "page_anime_q_0") =
      .ok (add_user DBState.empty 7, .silent) ∧
    button_handler [] oracle0 id [] DBState.empty 7 (chars "chars_page_42_1") =
      .error .indexError ∧
    button_handler [] oracle0 id [] DBState.empty 7 (chars "chars_page_x_42_1") =
      .ok (add_user DBState.empty 7,
        .toast (chars "❌ Données de personnages non disponibles.")) := by
  exact ⟨rfl, rfl, rfl, rfl⟩

/-- C9 amended: an identifier whose action token matches no branch of the
`elif` chain is ignored — no error, no response, and no Entity Store
change beyond the initial idempotent `add_user` upsert.  Malformed
arguments inside *recognised* branches are NOT ignored (see the
counterexample). -/
theorem c9_unknown_action_noop (registry : AchRegistry) (oracle : NetOracle)
    (enum : List Int → List Int) (ud : UserData) (s0 : DBState)
    (user_id : Int) (d : List Char) (h : knownAction d = false) :
    button_handler registry oracle enum ud s0 user_id d =
      .ok (add_user s0 user_id, .silent) := by
  simp only [knownAction, Bool.or_eq_false_iff] at h
  obtain ⟨⟨⟨⟨⟨⟨⟨⟨⟨⟨⟨⟨⟨⟨⟨⟨⟨⟨⟨⟨⟨⟨⟨⟨⟨h1, h2⟩, h3⟩, h4⟩, h5⟩, h6⟩, h7⟩, h8⟩, h9⟩, h10⟩, h11⟩, h12⟩, h13⟩, h14⟩, h15⟩, h16⟩, h17⟩, h18⟩, h19⟩, h20⟩, h21⟩, h22⟩, h23⟩, h24⟩, h25⟩, h26⟩ := h
  simp [button_handler, h1, h2, h3, h4, h5, h6, h7, h8, h9, h10, h11, h12,
    h13, h14, h15, h16, h17, h18, h19, h20, h21, h22, h23, h24, h25, h26]

/-- C9 counterexample: the malformed identifier `progress_abc` reaches the
`progress_` branch, whose `int(parts[1])` raises `ValueError`; the router
neither dispatches it to a no-op branch nor avoids the error. -/
theorem c9_malformed_argument_raises :
    button_handler [] oracle0 id [] DBState.empty 7 (chars "progress_abc") =
      .error .valueError ∧
    ∀ r, button_handler [] oracle0 id [] DBState.empty 7 (chars "progress_abc") ≠
      .ok r := by
  refine ⟨rfl, ?_⟩
  intro r h
  rw [show button_handler [] oracle0 id [] DBState.empty 7 (chars "progress_abc") =
      .error .valueError from rfl] at h
  exact Except.noConfusion h

/-- C9 witness: the amended theorem applied to the unknown identifier
`zzz`. -/
theorem c9_unknown_action_noop_witness :
    button_handler [] oracle0 id [] DBState.empty 7 (chars "zzz") =
      .ok (add_user DBState.empty 7, .silent) :=
  c9_unknown_action_noop [] oracle0 id [] DBState.empty 7 (chars "zzz")
    (by decide)
